import Mathlib

/-!
Verification of the Polymarket insider-detector scoring, filtering and
signal-fusion engine.

The Python sources (`analyzer.py`, `database_fixed.py`, `irrationality.py`,
`config.py`) are shallowly embedded below:

* Python floats are modelled as `ℚ` (all comparisons exercised by the claims
  are far from representation boundaries).
* Python strings are modelled as `String` / `List Char`; `str.lower()` /
  `str.upper()` are modelled by ASCII `Char.toLower` / `Char.toUpper`, which
  agree with CPython on the ASCII market titles involved.
* `re.search` over the pattern subset actually used by the source (literals,
  `.`/`.*`, character classes, alternation groups, `\d`, `\s`, bounded
  repetition, optional groups) is modelled by a Brzozowski-derivative matcher.
* `datetime` values are modelled as epoch seconds (`ℤ`); calendar dates as
  proleptic-Gregorian day numbers (days since 1970-01-01) via the standard
  civil-from-days / days-from-civil conversions.  Python's `datetime.now()`
  is made explicit as a `now` parameter.
* SQLite rows are modelled as records; SQL `NULL` as `Option`.  An exception
  raised inside `update_wallet_stats` is modelled by returning the unchanged
  state (the source rolls the transaction back in its handlers).
-/

set_option maxRecDepth 4000
set_option linter.unusedVariables false

/- ═══════════════════════════════════════════════════════════════════
   Basic string machinery
   ═══════════════════════════════════════════════════════════════════ -/

/-- Python `s.lower()` restricted to ASCII. -/
def pyLower (s : String) : String := ⟨s.data.map Char.toLower⟩

/-- Python `s.upper()` restricted to ASCII. -/
def pyUpper (s : String) : String := ⟨s.data.map Char.toUpper⟩

/-- `isPrefixCh need hay` : does `need` occur at the head of `hay`? -/
def isPrefixCh : List Char → List Char → Bool
  | [], _ => true
  | _ :: _, [] => false
  | a :: xs, b :: ys => a = b && isPrefixCh xs ys

/-- Python `need in hay` (substring containment). -/
def containsSub (need : List Char) : List Char → Bool
  | [] => isPrefixCh need []
  | hay@(_ :: rest) => isPrefixCh need hay || containsSub need rest

/-- Substring containment, `String` interface: Python `need in hay`. -/
def strIn (need hay : String) : Bool := containsSub need.data hay.data

/- ═══════════════════════════════════════════════════════════════════
   A Brzozowski-derivative matcher for the `re` patterns used in the
   source.  `cls rs neg` matches one character inside (resp. outside,
   when `neg` is true) the closed ranges `rs`; Python's `.` is the
   negated class `[^\n]`.
   ═══════════════════════════════════════════════════════════════════ -/

inductive RE where
  | emp : RE
  | eps : RE
  | cls (ranges : List (Char × Char)) (neg : Bool) : RE
  | seq (a b : RE) : RE
  | alt (a b : RE) : RE
  | star (a : RE) : RE
deriving DecidableEq

namespace RE

def nullable : RE → Bool
  | emp => false
  | eps => true
  | cls _ _ => false
  | seq a b => nullable a && nullable b
  | alt a b => nullable a || nullable b
  | star _ => true

def inRanges (rs : List (Char × Char)) (c : Char) : Bool :=
  rs.any fun p => p.1 ≤ c && c ≤ p.2

/-- Smart sequencing keeps derivatives small. -/
def mkSeq : RE → RE → RE
  | emp, _ => emp
  | _, emp => emp
  | eps, b => b
  | a, eps => a
  | a, b => seq a b

/-- Smart alternation keeps derivatives small. -/
def mkAlt : RE → RE → RE
  | emp, b => b
  | a, emp => a
  | a, b => alt a b

def deriv : RE → Char → RE
  | emp, _ => emp
  | eps, _ => emp
  | cls rs neg, c => if (inRanges rs c) ≠ neg then eps else emp
  | seq a b, c =>
      if nullable a then mkAlt (mkSeq (deriv a c) b) (deriv b c)
      else mkSeq (deriv a c) b
  | alt a b, c => mkAlt (deriv a c) (deriv b c)
  | star a, c => mkSeq (deriv a c) (star a)

/-- Does some prefix of `s` belong to the language of `r`? -/
def matchesPrefix : RE → List Char → Bool
  | r, [] => nullable r
  | r, c :: s => nullable r || matchesPrefix (deriv r c) s

/-- `re.search`: does some substring of `s` (starting anywhere) match `r`? -/
def search (r : RE) : List Char → Bool
  | [] => nullable r
  | s@(_ :: rest) => matchesPrefix r s || search r rest

/-- Length of the longest prefix of `s` in the language of `r`. -/
def longestPrefixLen (r : RE) : List Char → Option Nat
  | [] => if nullable r then some 0 else none
  | c :: s =>
      match longestPrefixLen (deriv r c) s with
      | some n => some (n + 1)
      | none => if nullable r then some 0 else none

/-- The leftmost match of `r` in `s`, returned as the matched text (taking
the longest extent at the leftmost starting position; the greedy patterns
this is applied to in the source have no shorter backtracking match). -/
def leftmostMatch (r : RE) : List Char → Option (List Char)
  | [] => if nullable r then some [] else none
  | s@(_ :: rest) =>
      match longestPrefixLen r s with
      | some n => some (s.take n)
      | none => leftmostMatch r rest

/- pattern-building helpers -/

def lit (c : Char) : RE := cls [(c, c)] false

def strLit (s : String) : RE := s.data.foldr (fun c r => seq (lit c) r) eps

/-- Python `.` (any character except a newline). -/
def anyC : RE := cls [('\n', '\n')] true

/-- Python `.*`. -/
def dotStar : RE := star anyC

/-- Python `\d`. -/
def digitC : RE := cls [('0', '9')] false

/-- Python `\s` (ASCII part). -/
def wsC : RE :=
  cls [(' ', ' '), ('\t', '\t'), ('\n', '\n'), ('\r', '\r'),
       ('\x0b', '\x0b'), ('\x0c', '\x0c')] false

def opt (r : RE) : RE := alt r eps

/-- `r{1,2}`. -/
def rep12 (r : RE) : RE := seq r (opt r)

def seqL (l : List RE) : RE := l.foldr seq eps

def altL : List RE → RE
  | [] => emp
  | [r] => r
  | r :: rs => alt r (altL rs)

end RE

/- ═══════════════════════════════════════════════════════════════════
   Calendar arithmetic.  Dates are proleptic-Gregorian; a `datetime`
   is its epoch-second count, a `date` its day number (days since
   1970-01-01).  The conversions are the standard civil-calendar
   algorithms; all divisions below are euclidean divisions of
   non-negative quantities, where they agree with the C-style
   truncating divisions of the original algorithm.
   ═══════════════════════════════════════════════════════════════════ -/

/-- Day number (days since 1970-01-01) of the civil date `y-m-d`. -/
def daysFromCivil (y m d : ℤ) : ℤ :=
  let y' : ℤ := if m ≤ 2 then y - 1 else y
  let era : ℤ := (if 0 ≤ y' then y' else y' - 399) / 400
  let yoe : ℤ := y' - era * 400
  let mp : ℤ := if 2 < m then m - 3 else m + 9
  let doy : ℤ := (153 * mp + 2) / 5 + d - 1
  let doe : ℤ := yoe * 365 + yoe / 4 - yoe / 100 + doy
  era * 146097 + doe - 719468

/-- Civil date `(y, m, d)` of a day number. -/
def civilFromDays (z : ℤ) : ℤ × ℤ × ℤ :=
  let z' : ℤ := z + 719468
  let era : ℤ := (if 0 ≤ z' then z' else z' - 146096) / 146097
  let doe : ℤ := z' - era * 146097
  let yoe : ℤ := (doe - doe / 1460 + doe / 36524 - doe / 146096) / 365
  let y : ℤ := yoe + era * 400
  let doy : ℤ := doe - (365 * yoe + yoe / 4 - yoe / 100)
  let mp : ℤ := (5 * doy + 2) / 153
  let d : ℤ := doy - (153 * mp + 2) / 5 + 1
  let m : ℤ := if mp < 10 then mp + 3 else mp - 9
  (if m ≤ 2 then y + 1 else y, m, d)

def isLeapYear (y : ℤ) : Bool :=
  (y % 4 = 0 && y % 100 ≠ 0) || y % 400 = 0

def daysInMonth (y m : ℤ) : ℤ :=
  if m = 2 then (if isLeapYear y then 29 else 28)
  else if m = 4 ∨ m = 6 ∨ m = 9 ∨ m = 11 then 30
  else 31

/-- Python `datetime(year, month, day)` succeeds exactly on these triples. -/
def isValidDate (y m d : ℤ) : Bool :=
  1 ≤ y && y ≤ 9999 && 1 ≤ m && m ≤ 12 && 1 ≤ d && d ≤ daysInMonth y m

/-- Python `timedelta.days` / calendar day of an epoch second count:
floor division (divisor positive, so euclidean = floor). -/
def epochDay (t : ℤ) : ℤ := t / 86400

/- ═══════════════════════════════════════════════════════════════════
   `datetime.fromisoformat(s.replace("Z", "+00:00"))` for the string
   shapes the data source produces: `YYYY-MM-DD`, optionally followed
   by `THH:MM:SS` (or a space separator), optionally followed by a
   `+HH:MM`/`-HH:MM` offset ("Z" having been replaced by "+00:00").
   `aware` records whether an offset was present: Python arithmetic
   between an offset-naive result and `datetime.now(timezone.utc)`
   raises `TypeError`.
   ═══════════════════════════════════════════════════════════════════ -/

structure IsoDT where
  epoch : ℤ
  aware : Bool
deriving DecidableEq

def digitVal (c : Char) : ℤ := (c.toNat : ℤ) - 48

def isDigitCh (c : Char) : Bool := '0' ≤ c && c ≤ '9'

/-- Replace every `'Z'` by `"+00:00"` (Python `s.replace("Z", "+00:00")`). -/
def replaceZ : List Char → List Char
  | [] => []
  | c :: rest =>
      if c = 'Z' then '+' :: '0' :: '0' :: ':' :: '0' :: '0' :: replaceZ rest
      else c :: replaceZ rest

/-- Parse `HH:MM:SS` plus optional offset, given the date part. -/
def parseIsoTime (days : ℤ) : List Char → Option IsoDT
  | [h1, h2, ':', m1, m2, ':', s1, s2] =>
      if isDigitCh h1 && isDigitCh h2 && isDigitCh m1 && isDigitCh m2 &&
         isDigitCh s1 && isDigitCh s2 then
        let hh := digitVal h1 * 10 + digitVal h2
        let mm := digitVal m1 * 10 + digitVal m2
        let ss := digitVal s1 * 10 + digitVal s2
        if hh ≤ 23 && mm ≤ 59 && ss ≤ 59 then
          some ⟨days * 86400 + hh * 3600 + mm * 60 + ss, false⟩
        else none
      else none
  | [h1, h2, ':', m1, m2, ':', s1, s2, sg, o1, o2, ':', o3, o4] =>
      if (sg = '+' || sg = '-') && isDigitCh h1 && isDigitCh h2 &&
         isDigitCh m1 && isDigitCh m2 && isDigitCh s1 && isDigitCh s2 &&
         isDigitCh o1 && isDigitCh o2 && isDigitCh o3 && isDigitCh o4 then
        let hh := digitVal h1 * 10 + digitVal h2
        let mm := digitVal m1 * 10 + digitVal m2
        let ss := digitVal s1 * 10 + digitVal s2
        let oh := digitVal o1 * 10 + digitVal o2
        let om := digitVal o3 * 10 + digitVal o4
        if hh ≤ 23 && mm ≤ 59 && ss ≤ 59 && oh ≤ 23 && om ≤ 59 then
          let off := oh * 3600 + om * 60
          some ⟨days * 86400 + hh * 3600 + mm * 60 + ss -
                  (if sg = '+' then off else -off), true⟩
        else none
      else none
  | _ => none

/-- `datetime.fromisoformat` on the shapes above (epoch of the UTC instant;
for an offset-naive string, the epoch of the wall-clock time read as UTC —
only its calendar date is ever used by the source in that case). -/
def parseIsoCore : List Char → Option IsoDT
  | y1 :: y2 :: y3 :: y4 :: '-' :: m1 :: m2 :: '-' :: d1 :: d2 :: rest =>
      if isDigitCh y1 && isDigitCh y2 && isDigitCh y3 && isDigitCh y4 &&
         isDigitCh m1 && isDigitCh m2 && isDigitCh d1 && isDigitCh d2 then
        let y := digitVal y1 * 1000 + digitVal y2 * 100 + digitVal y3 * 10 + digitVal y4
        let m := digitVal m1 * 10 + digitVal m2
        let d := digitVal d1 * 10 + digitVal d2
        if isValidDate y m d then
          let days := daysFromCivil y m d
          match rest with
          | [] => some ⟨days * 86400, false⟩
          | sep :: timePart =>
              if sep = 'T' || sep = ' ' then parseIsoTime days timePart
              else none
        else none
      else none
  | _ => none

/-- `datetime.fromisoformat(end_date_str.replace("Z", "+00:00"))`. -/
def parseIso (s : String) : Option IsoDT := parseIsoCore (replaceZ s.data)

/- ═══════════════════════════════════════════════════════════════════
   `extract_event_date_from_title` (analyzer.py).

   The three regex families are implemented as direct position-scanning
   parsers with the same leftmost-match / greedy-with-backtracking
   semantics as `re.search`, because the captured digit groups are
   needed, not just a match/no-match bit.
   ═══════════════════════════════════════════════════════════════════ -/

def isSepIso (c : Char) : Bool := c = '-' || c = '/'

def isSepRev (c : Char) : Bool := c = '-' || c = '/' || c = '.'

/-- Value of one or two leading digits, greedily (regex `(\d{1,2})`),
together with the remaining characters.  `none` if no leading digit. -/
def grabDigits12 : List Char → Option (ℤ × List Char)
  | a :: b :: rest =>
      if isDigitCh a && isDigitCh b then some (digitVal a * 10 + digitVal b, rest)
      else if isDigitCh a then some (digitVal a, b :: rest)
      else none
  | [a] => if isDigitCh a then some (digitVal a, []) else none
  | [] => none

/-- Exactly four leading digits (regex `(\d{4})`). -/
def grabDigits4 : List Char → Option (ℤ × List Char)
  | a :: b :: c :: d :: rest =>
      if isDigitCh a && isDigitCh b && isDigitCh c && isDigitCh d then
        some (digitVal a * 1000 + digitVal b * 100 + digitVal c * 10 + digitVal d, rest)
      else none
  | _ => none

/-- Try pattern 1 (year 4 digits, ISO separator, month 1-2 digits,
ISO separator, day 1-2 digits) anchored at the head. -/
def tryIsoHere (s : List Char) : Option (ℤ × ℤ × ℤ) := do
  let (y, r1) ← grabDigits4 s
  match r1 with
  | sep :: r2 =>
      if isSepIso sep then
        -- greedy 2-digit month first, falling back to 1 digit
        let two : Option (ℤ × ℤ × ℤ) :=
          match r2 with
          | m1 :: m2 :: sep2 :: r3 =>
              if isDigitCh m1 && isDigitCh m2 && isSepIso sep2 then
                (grabDigits12 r3).map fun (d, _) => (y, digitVal m1 * 10 + digitVal m2, d)
              else none
          | _ => none
        match two with
        | some v => some v
        | none =>
            match r2 with
            | m1 :: sep2 :: r3 =>
                if isDigitCh m1 && isSepIso sep2 then
                  (grabDigits12 r3).map fun (d, _) => (y, digitVal m1, d)
                else none
            | _ => none
      else none
  | [] => none

/-- Leftmost match of pattern 1 (`re.search` scans every start position). -/
def scanIso : List Char → Option (ℤ × ℤ × ℤ)
  | [] => none
  | s@(_ :: rest) =>
      match tryIsoHere s with
      | some v => some v
      | none => scanIso rest

/-- A 1-2 digit group whose match is followed by a reverse-date separator:
greedy two digits first, then backtrack to one. -/
def grabD12BeforeSep (s : List Char) (k : ℤ → List Char → Option (ℤ × ℤ × ℤ)) :
    Option (ℤ × ℤ × ℤ) :=
  match s with
  | a :: b :: sep :: rest =>
      if isDigitCh a && isDigitCh b && isSepRev sep then
        k (digitVal a * 10 + digitVal b) rest
      else if isDigitCh a && isSepRev b then
        k (digitVal a) (sep :: rest)
      else none
  | [a, b] =>
      if isDigitCh a && isSepRev b then k (digitVal a) [] else none
  | _ => none

/-- Try pattern 2 (day 1-2 digits, separator, month 1-2 digits, separator,
year 4 digits; separators `-`, `/` or `.`) anchored at the head. -/
def tryRevHere (s : List Char) : Option (ℤ × ℤ × ℤ) :=
  grabD12BeforeSep s fun d r1 =>
    grabD12BeforeSep r1 fun m r2 =>
      (grabDigits4 r2).map fun (y, _) => (d, m, y)

def scanRev : List Char → Option (ℤ × ℤ × ℤ)
  | [] => none
  | s@(_ :: rest) =>
      match tryRevHere s with
      | some v => some v
      | none => scanRev rest

/-- The month-name table, in the insertion order of the Python dict. -/
def monthsList : List (String × ℤ) :=
  [("january", 1), ("jan", 1), ("february", 2), ("feb", 2), ("march", 3),
   ("mar", 3), ("april", 4), ("apr", 4), ("may", 5), ("june", 6), ("jun", 6),
   ("july", 7), ("jul", 7), ("august", 8), ("aug", 8), ("september", 9),
   ("sep", 9), ("sept", 9), ("october", 10), ("oct", 10), ("november", 11),
   ("nov", 11), ("december", 12), ("dec", 12)]

/-- After a month name: `\s+(\d{1,2})` — at least one whitespace character,
then one or two digits (the greedy whitespace run cannot hide a digit). -/
def wsThenDigits : List Char → Option ℤ
  | c :: rest =>
      if c.isWhitespace then
        let rec skipWs : List Char → Option ℤ
          | d :: r => if d.isWhitespace then skipWs r
                      else if isDigitCh d then
                        match r with
                        | e :: _ => if isDigitCh e then some (digitVal d * 10 + digitVal e)
                                    else some (digitVal d)
                        | [] => some (digitVal d)
                      else none
          | [] => none
        skipWs rest
      else none
  | [] => none

/-- Leftmost match of `{month_name}\s+(\d{1,2})`, returning the day group. -/
def findMonthDay1 (name : List Char) : List Char → Option ℤ
  | [] => none
  | s@(_ :: rest) =>
      (if isPrefixCh name s then wsThenDigits (s.drop name.length) else none).orElse
        fun _ => findMonthDay1 name rest

/-- `(\d{1,2})\s+` then the month name, anchored at the head. -/
def tryDayMonthHere (name : List Char) (s : List Char) : Option ℤ :=
  let afterDigits : ℤ → List Char → Option ℤ := fun day r =>
    match r with
    | c :: rest =>
        if c.isWhitespace then
          let rec skipWs2 : List Char → Option ℤ
            | d :: r' => if d.isWhitespace then skipWs2 (d :: r').tail
                         else if isPrefixCh name (d :: r') then some day else none
            | [] => none
          skipWs2 rest
        else none
    | [] => none
  match s with
  | a :: b :: rest =>
      if isDigitCh a && isDigitCh b then afterDigits (digitVal a * 10 + digitVal b) rest
      else if isDigitCh a then afterDigits (digitVal a) (b :: rest)
      else none
  | [a] => if isDigitCh a then none else none
  | [] => none

/-- Leftmost match of `(\d{1,2})\s+{month_name}`, returning the day group. -/
def findMonthDay2 (name : List Char) : List Char → Option ℤ
  | [] => none
  | s@(_ :: rest) =>
      (tryDayMonthHere name s).orElse fun _ => findMonthDay2 name rest

/-- One iteration of the month loop: pattern 1, then pattern 2, each
guarded by the `datetime(year, month, day)` validity check (an invalid
date falls through, as the `except: pass` does). -/
def monthHit (low : List Char) (nowY nowM mnum : ℤ) (name : List Char) :
    Option (ℤ × ℤ × ℤ) :=
  let year := if mnum < nowM then nowY + 1 else nowY
  let fromP1 :=
    match findMonthDay1 name low with
    | some day => if isValidDate year mnum day then some (year, mnum, day) else none
    | none => none
  match fromP1 with
  | some v => some v
  | none =>
      match findMonthDay2 name low with
      | some day => if isValidDate year mnum day then some (year, mnum, day) else none
      | none => none

def monthLoop (low : List Char) (nowY nowM : ℤ) :
    List (String × ℤ) → Option (ℤ × ℤ × ℤ)
  | [] => none
  | (name, mnum) :: rest =>
      match monthHit low nowY nowM mnum name.data with
      | some v => some v
      | none => monthLoop low nowY nowM rest

/-- `extract_event_date_from_title` (analyzer.py:94).  Returns the civil
date of the extracted `datetime` (always a UTC midnight in the source).
`now` is the epoch-second time injected for `datetime.now()`. -/
def extract_event_date_from_title (title : String) (now : ℤ) : Option (ℤ × ℤ × ℤ) :=
  if title = "" then none
  else
    let cs := title.data
    let low := cs.map Char.toLower
    let p1 :=
      match scanIso cs with
      | some (y, m, d) => if isValidDate y m d then some (y, m, d) else none
      | none => none
    match p1 with
    | some v => some v
    | none =>
        let p2 :=
          match scanRev cs with
          | some (d, m, y) => if isValidDate y m d then some (y, m, d) else none
          | none => none
        match p2 with
        | some v => some v
        | none =>
            let nowDate := civilFromDays (epochDay now)
            monthLoop low nowDate.1 nowDate.2.1 monthsList

/- ═══════════════════════════════════════════════════════════════════
   config.py constants
   ═══════════════════════════════════════════════════════════════════ -/

def MIN_BET_SIZE : ℚ := 1000
def NEW_WALLET_DAYS_HIGH : ℤ := 3
def NEW_WALLET_DAYS_LOW : ℤ := 7
def LOW_ACTIVITY_THRESHOLD : ℤ := 5
def LOW_ODDS_THRESHOLD : ℚ := 1/10
def TIME_TO_RESOLVE_HOURS : ℚ := 24
def MAX_ODDS_THRESHOLD : ℚ := 19/20
def BLOCK_15MIN_MARKETS : Bool := true
def BLOCK_SHORT_PRICE_PREDICTIONS : Bool := true

def SCORES_wallet_age_high : ℤ := 40
def SCORES_wallet_age_low : ℤ := 20
def SCORES_against_trend : ℤ := 25
def SCORES_large_bet : ℤ := 20
def SCORES_timing : ℤ := 15
def SCORES_low_activity : ℤ := 10

/- ═══════════════════════════════════════════════════════════════════
   analyzer.py — wallet age, effective odds, sub-scores
   ═══════════════════════════════════════════════════════════════════ -/

/-- `calculate_wallet_age_days` (analyzer.py:11); `now` is
`datetime.now()` as epoch seconds; a missing or zero timestamp is falsy. -/
def calculate_wallet_age_days (now : ℤ) (first_activity_timestamp : Option ℤ) : ℤ :=
  match first_activity_timestamp with
  | none => 999
  | some t => if t = 0 then 999 else (now - t) / 86400

/-- `calculate_wallet_age_score` (analyzer.py:18). -/
def calculate_wallet_age_score (now : ℤ) (first_activity_timestamp : Option ℤ) : ℤ :=
  match first_activity_timestamp with
  | none => 0
  | some t =>
      if t = 0 then 0
      else
        let age_days := calculate_wallet_age_days now first_activity_timestamp
        if age_days < NEW_WALLET_DAYS_HIGH then SCORES_wallet_age_high
        else if age_days < NEW_WALLET_DAYS_LOW then SCORES_wallet_age_low
        else 0

/-- `get_effective_odds` (analyzer.py:33). -/
def get_effective_odds (trade_price : ℚ) (outcome : String) : ℚ :=
  if outcome ≠ "" ∧ pyLower outcome = "no" then 1 - trade_price else trade_price

/-- `calculate_against_trend_score` (analyzer.py:50). -/
def calculate_against_trend_score (trade_price : ℚ) (outcome : String) : ℤ :=
  let effective := get_effective_odds trade_price outcome
  if effective < LOW_ODDS_THRESHOLD then SCORES_against_trend
  else if effective > 95/100 then SCORES_against_trend
  else 0

/-- `calculate_bet_size_score` (analyzer.py:68). -/
def calculate_bet_size_score (amount : ℚ) : ℤ :=
  if amount ≥ MIN_BET_SIZE then SCORES_large_bet else 0

/-- `calculate_timing_score` (analyzer.py:73).  An offset-naive end date
raises `TypeError` on subtraction from `datetime.now(timezone.utc)`,
caught by the bare `except` — hence 0. -/
def calculate_timing_score (end_date_str : Option String) (now : ℤ) : ℤ :=
  match end_date_str with
  | none => 0
  | some s =>
      if s = "" then 0
      else
        match parseIso s with
        | some dt =>
            if dt.aware then
              let hours : ℚ := ((dt.epoch - now : ℤ) : ℚ) / 3600
              if 0 < hours ∧ hours < TIME_TO_RESOLVE_HOURS then SCORES_timing else 0
            else 0
        | none => 0

/-- `calculate_activity_score` (analyzer.py:88). -/
def calculate_activity_score (total_activities : ℤ) : ℤ :=
  if total_activities < LOW_ACTIVITY_THRESHOLD then SCORES_low_activity else 0

/- ═══════════════════════════════════════════════════════════════════
   analyzer.py — `is_15min_market`
   ═══════════════════════════════════════════════════════════════════ -/

def amPm : RE := RE.opt (RE.alt (RE.strLit "am") (RE.strLit "pm"))

/-- First time-range pattern of `is_15min_market`. -/
def timeRange1 : RE :=
  RE.seqL [RE.rep12 RE.digitC, RE.lit ':', RE.digitC, RE.digitC,
           RE.star RE.wsC, amPm, RE.star RE.wsC, RE.lit '-', RE.star RE.wsC,
           RE.rep12 RE.digitC, RE.lit ':', RE.digitC, RE.digitC,
           RE.star RE.wsC, amPm]

/-- Second time-range pattern of `is_15min_market`. -/
def timeRange2 : RE :=
  RE.seqL [RE.rep12 RE.digitC, RE.lit ':', RE.digitC, RE.digitC, RE.lit '-',
           RE.rep12 RE.digitC, RE.lit ':', RE.digitC, RE.digitC]

def hft_keywords : List String := ["up or down", "15 min", "30 min", "minute interval"]

/-- `is_15min_market` (analyzer.py:168): a matched time range whose text
contains "15", "30" or "45", or one of the HFT keywords. -/
def is_15min_market (market_question : String) : Bool :=
  if market_question = "" then false
  else
    let low := market_question.data.map Char.toLower
    let hit : RE → Bool := fun p =>
      match RE.leftmostMatch p low with
      | some txt =>
          containsSub "15".data txt || containsSub "30".data txt ||
            containsSub "45".data txt
      | none => false
    if hit timeRange1 then true
    else if hit timeRange2 then true
    else hft_keywords.any fun kw => containsSub kw.data low

/- ═══════════════════════════════════════════════════════════════════
   analyzer.py — the absurd-market regex blacklist
   ═══════════════════════════════════════════════════════════════════ -/

/-- `[89]`. -/
def d89 : RE := RE.cls [('8', '9')] false

/-- `[6-9]`. -/
def d69 : RE := RE.cls [('6', '9')] false

/-- `a.*b.*c`-style chains. -/
def chain : List RE → RE
  | [] => RE.eps
  | [r] => r
  | r :: rs => RE.seq r (RE.seq RE.dotStar (chain rs))

def winFinalsChampion : RE :=
  RE.altL [RE.strLit "win", RE.strLit "finals", RE.strLit "champion"]

def nbaOr20269 : RE := RE.alt (RE.strLit "nba") (RE.seq (RE.strLit "202") d69)

def year2829 : RE := RE.seq (RE.strLit "202") d89

/-- The `absurd_patterns` list of `should_skip_alert` (analyzer.py:289),
in source order. -/
def absurd_patterns : List RE :=
  [ chain [RE.strLit "kardashian", RE.strLit "president"],
    chain [RE.strLit "kanye", RE.strLit "president"],
    chain [RE.strLit "elon musk", RE.strLit "president"],
    chain [RE.strLit "taylor swift", RE.strLit "president"],
    chain [RE.strLit "youngkin", year2829, RE.strLit "president"],
    chain [RE.strLit "everton",
           RE.alt (RE.strLit "win") (RE.strLit "champion"),
           RE.strLit "premier league"],
    chain [RE.strLit "wizards", winFinalsChampion, nbaOr20269],
    chain [RE.strLit "pistons", winFinalsChampion, nbaOr20269],
    chain [RE.strLit "hornets", winFinalsChampion, nbaOr20269],
    chain [RE.strLit "blazers", winFinalsChampion, nbaOr20269],
    chain [RE.strLit "spurs", winFinalsChampion, nbaOr20269],
    chain [RE.strLit "relegated", RE.strLit "win", RE.strLit "league"],
    chain [RE.strLit "norway",
           RE.alt (RE.strLit "world cup") (RE.strLit "fifa")],
    chain [RE.altL [RE.strLit "iceland", RE.strLit "albania", RE.strLit "malta",
                    RE.strLit "luxembourg", RE.strLit "liechtenstein"],
           RE.alt (RE.strLit "world cup") (RE.strLit "fifa")],
    chain [RE.altL [RE.strLit "nba", RE.strLit "nfl", RE.strLit "mlb",
                    RE.strLit "nhl"],
           RE.strLit "vs."],
    chain [RE.strLit "pistons", RE.strLit "vs."],
    chain [RE.strLit "warriors", RE.strLit "vs."],
    chain [year2829,
           RE.altL [RE.strLit "president", RE.strLit "presidential",
                    RE.strLit "nomination"]],
    chain [RE.altL [RE.strLit "president", RE.strLit "presidential",
                    RE.strLit "nomination"],
           year2829],
    chain [RE.alt (RE.strLit "win") (RE.strLit "winner"), year2829,
           RE.alt (RE.strLit "president") (RE.strLit "nomination")],
    chain [year2829, RE.alt (RE.strLit "win") (RE.strLit "winner"),
           RE.alt (RE.strLit "president") (RE.strLit "nomination")],
    chain [RE.strLit "liz cheney", year2829, RE.strLit "nomination"],
    chain [RE.strLit "ventura", RE.seq (RE.strLit "202") d69,
           RE.strLit "president"],
    chain [RE.strLit "stranger things",
           RE.alt (RE.strLit "episode") (RE.strLit "season")],
    chain [RE.strLit "netflix",
           RE.alt (RE.strLit "release") (RE.strLit "premiere")],
    chain [RE.alt (RE.strLit "movie") (RE.strLit "film"),
           RE.altL [RE.strLit "release", RE.strLit "premiere", RE.strLit "oscar"]],
    chain [RE.strLit "tv", RE.strLit "show",
           RE.alt (RE.strLit "episode") (RE.strLit "season")],
    RE.strLit "game of thrones" ]

/- ═══════════════════════════════════════════════════════════════════
   analyzer.py — `should_skip_alert`
   ═══════════════════════════════════════════════════════════════════ -/

/-- The tag of the reason string returned with a skip verdict.  The
interpolated figures of the Python f-strings are presentation only;
`NONE` models the empty reason `""` of a non-skip. -/
inductive SkipReason where
  | NONE
  | LONG_LEAD_TIME
  | HFT_15MIN_MARKET
  | SHORT_CRYPTO_PRICE
  | SHORT_TERM_MARKET
  | ABSURD_MARKET
  | LOW_ROI
  | MARKET_MAKER
  | IMPOSSIBLE_ODDS
deriving DecidableEq

def SkipReason.isMarketMaker : SkipReason → Bool
  | .MARKET_MAKER => true
  | _ => false

/-- `if latency_minutes and latency_minutes > 10080:` — `None` and `0`
are falsy. -/
def latencyTrigger (latency_minutes : Option ℚ) : Bool :=
  match latency_minutes with
  | none => false
  | some l => l ≠ 0 && l > 10080

def crypto_keywords : List String :=
  ["bitcoin", "ethereum", "solana", "btc", "eth", "sol", "price"]

def price_keywords : List String :=
  ["above", "below", "less than", "more than", "price"]

def nba_underdogs : List String :=
  ["wizards", "pistons", "hornets", "blazers", "spurs", "raptors", "nets"]

def political_longshots : List String := ["youngkin", "ventura", "desantis"]

/-- The event date (as a day number) used by FILTER 2: first the title,
then `endDate`. -/
def eventDateDays (market_question : String) (end_date_str : Option String)
    (now : ℤ) : Option ℤ :=
  match (if market_question ≠ "" then extract_event_date_from_title market_question now
         else none) with
  | some (y, m, d) => some (daysFromCivil y m d)
  | none =>
      match end_date_str with
      | some es => (parseIso es).map fun dt => epochDay dt.epoch
      | none => none

/-- Does the lowered question match some blacklist pattern? -/
def absurdHit (market_question : String) : Bool :=
  absurd_patterns.any fun p => RE.search p (market_question.data.map Char.toLower)

/-- FILTER 3 onwards (the `if market_question:` block of
`should_skip_alert`): absurd blacklist, LOW_ROI, MARKET_MAKER,
IMPOSSIBLE_ODDS. -/
def lateFilters (market_question : String) (effective_odds : ℚ) :
    Bool × SkipReason :=
  if market_question = "" then (false, .NONE)
  else
    let low := market_question.data.map Char.toLower
    if absurdHit market_question then (true, .ABSURD_MARKET)
    else if effective_odds ≥ 9/10 ∧ (1 - effective_odds) / effective_odds < 1/10 then
      (true, .LOW_ROI)
    else if effective_odds ≥ 97/100 ∨ effective_odds ≤ 3/100 then
      (true, .MARKET_MAKER)
    else if effective_odds > 95/100 ∧
        (nba_underdogs.any fun t => containsSub t.data low) ∧
        (containsSub "finals".data low || containsSub "championship".data low) then
      (true, .IMPOSSIBLE_ODDS)
    else if effective_odds > 95/100 ∧
        (political_longshots.any fun c => containsSub c.data low) ∧
        (containsSub "president".data low || containsSub "nomination".data low) then
      (true, .IMPOSSIBLE_ODDS)
    else (false, .NONE)

/-- `should_skip_alert` (analyzer.py:207).  `now` is the injected
current time (epoch seconds, UTC). -/
def should_skip_alert (market_question : String) (wallet_age_days : ℤ)
    (odds : ℚ) (total_activities : ℤ) (end_date_str : Option String)
    (amount : ℚ) (latency_minutes : Option ℚ) (outcome : String) (now : ℤ) :
    Bool × SkipReason :=
  let effective_odds := get_effective_odds odds outcome
  if latencyTrigger latency_minutes then (true, .LONG_LEAD_TIME)
  else if BLOCK_15MIN_MARKETS && market_question ≠ "" &&
      is_15min_market market_question then (true, .HFT_15MIN_MARKET)
  else
    let today := epochDay now
    let short : Option (Bool × SkipReason) :=
      match eventDateDays market_question end_date_str now with
      | some ed =>
          let low := market_question.data.map Char.toLower
          if BLOCK_SHORT_PRICE_PREDICTIONS && market_question ≠ "" &&
             (crypto_keywords.any fun kw => containsSub kw.data low) &&
             (price_keywords.any fun kw => containsSub kw.data low) &&
             ed ≤ today + 3 then
            some (true, .SHORT_CRYPTO_PRICE)
          else if ed ≤ today + 1 then some (true, .SHORT_TERM_MARKET)
          else none
      | none => none
    match short with
    | some r => r
    | none => lateFilters market_question effective_odds

/- ═══════════════════════════════════════════════════════════════════
   analyzer.py — `calculate_score`
   ═══════════════════════════════════════════════════════════════════ -/

structure Trade where
  outcome : String
  price : ℚ
  size : ℚ

structure WalletData where
  first_activity_timestamp : Option ℤ
  total_count : ℤ

structure Market where
  endDate : Option String

/-- The human-readable flag strings, by tag and datum. -/
inductive ScoreFlag where
  | newWallet (age_days : ℤ)
  | againstTrend (effective : ℚ)
  | extremeConfidence (effective : ℚ)
  | largeBet (amount : ℚ)
  | closeToDeadline (hours : ℚ)
  | lowActivity (txns : ℤ)
deriving DecidableEq

structure ScoreBreakdown where
  score : ℤ
  flags : List ScoreFlag
  amount : ℚ
  odds : ℚ
  raw_price : ℚ
  outcome : String
  potential_pnl : ℚ
  pnl_multiplier : ℚ
  wallet_age_days : ℤ
  total_activities : ℤ
deriving DecidableEq

/-- `calculate_score` (analyzer.py:387).  Divisions by a zero price
(`ZeroDivisionError`, uncaught in the source) are modelled by the
total field division of `ℚ`; no claim evaluates them. -/
def calculate_score (trade : Trade) (wallet_data : WalletData) (market : Market)
    (now : ℤ) : ScoreBreakdown :=
  let outcome := trade.outcome
  let trade_price := trade.price
  let effective := get_effective_odds trade_price outcome
  let is_no : Bool := outcome ≠ "" && pyLower outcome = "no"
  let wallet_age_score := calculate_wallet_age_score now wallet_data.first_activity_timestamp
  let age_days := calculate_wallet_age_days now wallet_data.first_activity_timestamp
  let f1 : List ScoreFlag := if wallet_age_score > 0 then [.newWallet age_days] else []
  let against_trend_score := calculate_against_trend_score trade_price outcome
  let f2 : List ScoreFlag :=
    if against_trend_score > 0 then
      if effective < LOW_ODDS_THRESHOLD then [.againstTrend effective]
      else [.extremeConfidence effective]
    else []
  let size := trade.size
  let amount := if is_no then size * (1 - trade_price) else size * trade_price
  let bet_size_score := calculate_bet_size_score amount
  let f3 : List ScoreFlag := if bet_size_score > 0 then [.largeBet amount] else []
  let timing_score := calculate_timing_score market.endDate now
  let f4 : List ScoreFlag :=
    if timing_score > 0 then
      match market.endDate.bind (fun s => parseIso s) with
      | some dt => [.closeToDeadline (((dt.epoch - now : ℤ) : ℚ) / 3600)]
      | none => []
    else []
  let total_activities := wallet_data.total_count
  let activity_score := calculate_activity_score total_activities
  let f5 : List ScoreFlag := if activity_score > 0 then [.lowActivity total_activities] else []
  let score := wallet_age_score + against_trend_score + bet_size_score +
               timing_score + activity_score
  let potential_pnl :=
    if is_no then amount * (trade_price / (1 - trade_price))
    else amount * ((1 - trade_price) / trade_price)
  let pnl_multiplier :=
    if is_no then trade_price / (1 - trade_price)
    else (1 - trade_price) / trade_price
  { score := score
    flags := f1 ++ f2 ++ f3 ++ f4 ++ f5
    amount := amount
    odds := effective
    raw_price := trade_price
    outcome := outcome
    potential_pnl := potential_pnl
    pnl_multiplier := pnl_multiplier
    wallet_age_days := age_days
    total_activities := total_activities }

/- ═══════════════════════════════════════════════════════════════════
   database_fixed.py — wallet statistics
   ═══════════════════════════════════════════════════════════════════ -/

/-- One `wallet_performance` row.  `avg_latency_seconds` is `Option`
because the insert path stores SQL `NULL` when the trade carried no
latency (`trade_data.get('latency_seconds', 0)` returns the stored
`None`; the callers in detector.py always supply the key). -/
structure WalletRow where
  total_trades : ℤ
  pre_event_trades : ℤ
  total_volume : ℚ
  avg_latency_seconds : Option ℚ
  insider_score : ℚ
  classification : String
deriving DecidableEq

/-- The dict passed to `update_wallet_stats` by detector.py. -/
structure TradeData where
  is_pre_event : Bool
  size : ℚ
  latency_seconds : Option ℚ
deriving DecidableEq

/-- Python `round(x, 2)` (the float banker's rounding of the source
agrees with this rational rounding on every value the claims evaluate;
no evaluated value sits on a half-cent boundary). -/
def round2 (q : ℚ) : ℚ := ((round (q * 100) : ℤ) : ℚ) / 100

/-- `calculate_insider_score` (database_fixed.py:426). -/
def calculate_insider_score (pre_event_trades total_trades : ℤ)
    (avg_latency : ℚ) : ℚ :=
  let pre_event_ratio : ℚ :=
    if 0 < total_trades then (pre_event_trades : ℚ) / (total_trades : ℚ) else 0
  let pre_event_score := min (pre_event_ratio * 100) 100 * (1/2)
  let latency_score : ℚ :=
    if 0 < avg_latency then min (avg_latency / 1800 * 100) 100 * (1/2) else 0
  round2 (pre_event_score + latency_score)

/-- `classify_wallet` (database_fixed.py:446). -/
def classify_wallet (insider_score : ℚ) (pre_event_trades total_trades : ℤ) :
    String :=
  if total_trades < 3 then "New"
  else if insider_score ≥ 80 then "Probable Insider"
  else if insider_score ≥ 60 then "Syndicate/Whale"
  else if insider_score ≥ 30 then "Professional"
  else "Retail"

/-- `update_wallet_stats` (database_fixed.py:211) as a state transformer
on the wallet's row (`none` = the wallet has no row).

* A stored `NULL` average latency makes both update branches raise
  `TypeError` (`None * count` resp. `None > 0` inside
  `calculate_insider_score`); the `except Exception` handler rolls the
  transaction back, so the state is returned unchanged.
* A violated schema `CHECK` constraint (`total_volume >= 0`,
  `avg_latency_seconds >= 0`) aborts the statement; the `sqlite3.Error`
  handler rolls back (and re-raises), so the state is again unchanged. -/
def update_wallet_stats (st : Option WalletRow) (td : TradeData) :
    Option WalletRow :=
  match st with
  | some row =>
      match row.avg_latency_seconds with
      | none => st
      | some old_avg_latency =>
          let total_trades := row.total_trades + 1
          let pre_event_trades :=
            row.pre_event_trades + (if td.is_pre_event then 1 else 0)
          let total_volume := row.total_volume + td.size
          let incorporate : Bool :=
            match td.latency_seconds with
            | some v => v ≠ 0 && v > 0
            | none => false
          let avg_latency : ℚ :=
            if incorporate then
              (old_avg_latency * (row.total_trades : ℚ) +
                 td.latency_seconds.getD 0) / (total_trades : ℚ)
            else old_avg_latency
          let insider_score :=
            calculate_insider_score pre_event_trades total_trades avg_latency
          let classification :=
            classify_wallet insider_score pre_event_trades total_trades
          if total_volume < 0 ∨ avg_latency < 0 then st
          else
            some { total_trades := total_trades
                   pre_event_trades := pre_event_trades
                   total_volume := total_volume
                   avg_latency_seconds := some avg_latency
                   insider_score := insider_score
                   classification := classification }
  | none =>
      let negLatency : Bool :=
        match td.latency_seconds with
        | some v => v < 0
        | none => false
      if td.size < 0 ∨ negLatency then none
      else
        some { total_trades := 1
               pre_event_trades := if td.is_pre_event then 1 else 0
               total_volume := td.size
               avg_latency_seconds := td.latency_seconds
               insider_score := 0
               classification := "New" }

/-- A sequence of `update_wallet_stats` calls. -/
def applyTrades (st : Option WalletRow) (tds : List TradeData) :
    Option WalletRow :=
  tds.foldl update_wallet_stats st

/- ═══════════════════════════════════════════════════════════════════
   irrationality.py — category tables
   ═══════════════════════════════════════════════════════════════════ -/

/-- `CATEGORY_KEYWORDS` (irrationality.py:26): regex keywords per
category, in dict-insertion order. -/
def CATEGORY_KEYWORDS : List (String × List RE) :=
  [ ("meme",
     [RE.strLit "kanye", RE.strLit "elon",
      chain [RE.strLit "trump", RE.strLit "tweet"],
      RE.strLit "kardashian", RE.strLit "pewdiepie", RE.strLit "mr beast",
      RE.strLit "doge", RE.strLit "shiba", RE.strLit "pepe", RE.strLit "meme",
      RE.strLit "viral", RE.strLit "tiktok", RE.strLit "influencer",
      RE.strLit "celebrity", RE.strLit "rapper",
      chain [RE.strLit "actor", RE.strLit "president"],
      chain [RE.strLit "singer", RE.strLit "president"]]),
    ("conspiracy",
     [RE.strLit "epstein", RE.strLit "alien", RE.strLit "ufo",
      RE.strLit "disclosure", RE.strLit "coverup", RE.strLit "deep state",
      RE.strLit "illuminati", RE.strLit "flat earth", RE.strLit "simulation",
      chain [RE.strLit "cia", RE.strLit "admit"],
      chain [RE.strLit "fbi", RE.strLit "admit"],
      RE.strLit "secret",
      chain [RE.strLit "classified", RE.strLit "release"],
      RE.strLit "whistleblow"]),
    ("politics_far",
     [RE.strLit "2028", RE.strLit "2029", RE.strLit "2030", RE.strLit "2032",
      chain [RE.strLit "next", RE.strLit "president"],
      chain [RE.strLit "future", RE.strLit "election"],
      chain [RE.strLit "nomination", year2829],
      chain [RE.strLit "presidential", year2829]]),
    ("politics_near",
     [RE.strLit "2025", RE.strLit "2026", RE.strLit "midterm",
      chain [RE.strLit "senate", RE.strLit "race"],
      chain [RE.strLit "governor", RE.strLit "race"],
      RE.strLit "special election", RE.strLit "recall", RE.strLit "impeach"]),
    ("geopolitics",
     [RE.strLit "war", RE.strLit "invasion", RE.strLit "military",
      RE.strLit "strike", RE.strLit "attack", RE.strLit "nato",
      RE.strLit "nuclear", RE.strLit "ceasefire", RE.strLit "treaty",
      RE.strLit "sanction",
      chain [RE.strLit "china", RE.strLit "taiwan"],
      chain [RE.strLit "russia", RE.strLit "ukraine"],
      RE.strLit "israel", RE.strLit "iran", RE.strLit "north korea",
      RE.strLit "missile"]),
    ("macro",
     [RE.strLit "collapse", RE.strLit "hyperinflation", RE.strLit "depression",
      RE.strLit "default",
      chain [RE.strLit "dollar", RE.strLit "crash"],
      chain [RE.strLit "fed", RE.strLit "rate"],
      RE.strLit "recession",
      chain [RE.strLit "bank", RE.strLit "fail"],
      chain [RE.strLit "currency", RE.strLit "crisis"],
      RE.strLit "debt ceiling"]),
    ("sports",
     [RE.strLit "nba", RE.strLit "nfl", RE.strLit "mlb", RE.strLit "nhl",
      RE.strLit "fifa", RE.strLit "world cup", RE.strLit "super bowl",
      RE.strLit "championship", RE.strLit "playoffs", RE.strLit "finals",
      RE.strLit "mvp", RE.strLit " vs ",
      RE.seq (RE.strLit " vs") RE.anyC]),
    ("crypto",
     [RE.strLit "bitcoin", RE.strLit "ethereum", RE.strLit "btc",
      RE.strLit "eth", RE.strLit "crypto", RE.strLit "solana",
      chain [RE.strLit "price", RE.lit '$'],
      RE.seqL [RE.strLit "all", RE.anyC, RE.strLit "time", RE.anyC,
               RE.strLit "high"],
      RE.strLit "ath"]) ]

structure CategoryInfo where
  strength : String
  typical_overpricing : ℚ
  min_edge : ℚ
deriving DecidableEq

/-- `CATEGORY_BIAS` (irrationality.py:66); the wildcard row doubles as
the `'other'` default of every `.get(category, CATEGORY_BIAS['other'])`. -/
def CATEGORY_BIAS (category : String) : CategoryInfo :=
  if category = "meme" then ⟨"very_high", 7/100, 3/100⟩
  else if category = "conspiracy" then ⟨"very_high", 6/100, 4/100⟩
  else if category = "politics_far" then ⟨"high", 5/100, 5/100⟩
  else if category = "politics_near" then ⟨"medium", 2/100, 3/100⟩
  else if category = "geopolitics" then ⟨"high", 5/100, 5/100⟩
  else if category = "macro" then ⟨"high", 4/100, 6/100⟩
  else if category = "sports" then ⟨"medium", 3/100, 5/100⟩
  else if category = "crypto" then ⟨"medium", 3/100, 5/100⟩
  else ⟨"medium", 3/100, 5/100⟩

/-- `BASE_RATES.get(c, 0.10)` (irrationality.py:79). -/
def BASE_RATES (base_rate_class : String) : ℚ :=
  if base_rate_class = "historically_near_zero" then 1/100
  else if base_rate_class = "rare" then 1/20
  else if base_rate_class = "occasional" then 3/20
  else if base_rate_class = "common" then 7/20
  else 1/10

/-- `CATEGORY_PROBABILITY_MULT.get(c, 1.0)` (irrationality.py:87). -/
def CATEGORY_PROBABILITY_MULT (category : String) : ℚ :=
  if category = "meme" then 8/10
  else if category = "conspiracy" then 7/10
  else if category = "geopolitics" then 12/10
  else if category = "macro" then 13/10
  else 1

/-- `classify_category` (irrationality.py:100): the category with the
most keyword hits; Python's `max(d, key=d.get)` keeps the first
maximum in dict-insertion order. -/
def classify_category (market_question : String) : String :=
  if market_question = "" then "other"
  else
    let low := market_question.data.map Char.toLower
    let category_scores : List (String × ℕ) :=
      (CATEGORY_KEYWORDS.map fun ck =>
        (ck.1, (ck.2.filter fun p => RE.search p low).length)).filter
        fun x => 0 < x.2
    match category_scores with
    | [] => "other"
    | x :: xs => (xs.foldl (fun best y => if y.2 > best.2 then y else best) x).1

/- ═══════════════════════════════════════════════════════════════════
   irrationality.py — `calculate_irrationality_score`
   ═══════════════════════════════════════════════════════════════════ -/

/-- Tags of the flag strings appended by `calculate_irrationality_score`. -/
inductive IrrFlag where
  | longshot
  | volumeSpike
  | elevatedVolume
  | categoryBiasProne
  | extremeMove
  | memeLanguage
  | crisisKeyword
  | largeEdge
  | significantEdge
  | moderateEdge
deriving DecidableEq

structure IrrationalityResult where
  irrationality_score : ℚ
  flags : List IrrFlag
  category : String
  category_info : CategoryInfo
  is_irrational : Bool
deriving DecidableEq

def meme_boosters : List String :=
  ["meme", "viral", "trending", "hype", "moon", "crazy"]

def crisis_boosters : List String :=
  ["war", "strike", "attack", "invasion", "nuclear", "collapse", "crash"]

/-- Longshot threshold of step 1 (category-specific). -/
def longshotThreshold (category : String) : ℚ :=
  if category = "geopolitics" ∨ category = "macro" then 30/100
  else if category = "meme" ∨ category = "conspiracy" then 25/100
  else 15/100

/-- Step 1 contribution: longshot price scaled by category bias strength. -/
def longshotPoints (category : String) (yes_price : ℚ) : ℚ :=
  if yes_price < longshotThreshold category then
    if (CATEGORY_BIAS category).strength = "very_high" then 35
    else if (CATEGORY_BIAS category).strength = "high" then 25
    else if (CATEGORY_BIAS category).strength = "medium" then 15
    else 5
  else 0

/-- Step 2 contribution: volume spike. -/
def volumePoints (volume_24h volume_avg_30d : ℚ) : ℚ :=
  if 0 < volume_avg_30d ∧ 0 < volume_24h then
    if volume_24h / volume_avg_30d > 3 then 25
    else if volume_24h / volume_avg_30d > 2 then 15
    else 0
  else 0

/-- Step 3 contribution: `category_bias_score.get(strength, 5)`. -/
def biasPoints (category : String) : ℚ :=
  if (CATEGORY_BIAS category).strength = "very_high" then 20
  else if (CATEGORY_BIAS category).strength = "high" then 15
  else if (CATEGORY_BIAS category).strength = "medium" then 10
  else if (CATEGORY_BIAS category).strength = "low" then 5
  else 5

/-- Step 4 contribution: extreme 24h price move. -/
def movePoints (price_change_24h : ℚ) : ℚ :=
  if |price_change_24h| > 1/10 then 15
  else if |price_change_24h| > 1/20 then 8
  else 0

/-- Step 5 contribution: meme-language boost (the loop breaks after the
first hit, so at most one +5). -/
def memePoints (low : List Char) : ℚ :=
  if meme_boosters.any (fun b => containsSub b.data low) then 5 else 0

/-- Step 5 contribution: crisis-keyword boost. -/
def crisisPoints (low : List Char) : ℚ :=
  if crisis_boosters.any (fun b => containsSub b.data low) then 10 else 0

/-- Step 6 contribution: edge-based boost. -/
def edgePoints (edge_percent : ℚ) : ℚ :=
  if 0 < edge_percent then
    if edge_percent ≥ 15 then 25
    else if edge_percent ≥ 10 then 15
    else if edge_percent ≥ 5 then 8
    else 0
  else 0

/-- `calculate_irrationality_score` (irrationality.py:131); the
sequential `score +=` blocks appear as the named addends above. -/
def calculate_irrationality_score (market_question : String) (yes_price : ℚ)
    (volume_24h : ℚ) (volume_avg_30d : ℚ) (price_change_24h : ℚ)
    (edge_percent : ℚ) : IrrationalityResult :=
  let category := classify_category market_question
  let category_info := CATEGORY_BIAS category
  let f1 : List IrrFlag :=
    if yes_price < longshotThreshold category then [.longshot] else []
  let f2 : List IrrFlag :=
    if 0 < volume_avg_30d ∧ 0 < volume_24h then
      if volume_24h / volume_avg_30d > 3 then [.volumeSpike]
      else if volume_24h / volume_avg_30d > 2 then [.elevatedVolume] else []
    else []
  let f3 : List IrrFlag :=
    if biasPoints category ≥ 15 then [.categoryBiasProne] else []
  let f4 : List IrrFlag := if |price_change_24h| > 1/10 then [.extremeMove] else []
  let low := market_question.data.map Char.toLower
  let f5 : List IrrFlag :=
    if meme_boosters.any (fun b => containsSub b.data low) then [.memeLanguage] else []
  let f6 : List IrrFlag :=
    if crisis_boosters.any (fun b => containsSub b.data low) then [.crisisKeyword] else []
  let f7 : List IrrFlag :=
    if 0 < edge_percent then
      if edge_percent ≥ 15 then [.largeEdge]
      else if edge_percent ≥ 10 then [.significantEdge]
      else if edge_percent ≥ 5 then [.moderateEdge]
      else []
    else []
  let score :=
    min (longshotPoints category yes_price + volumePoints volume_24h volume_avg_30d +
         biasPoints category + movePoints price_change_24h + memePoints low +
         crisisPoints low + edgePoints edge_percent) 100
  { irrationality_score := score
    flags := f1 ++ f2 ++ f3 ++ f4 ++ f5 ++ f6 ++ f7
    category := category
    category_info := category_info
    is_irrational := score ≥ 30 }

/- ═══════════════════════════════════════════════════════════════════
   irrationality.py — `calculate_mispricing`
   ═══════════════════════════════════════════════════════════════════ -/

/-- The factor dict consumed by `calculate_mispricing` (from the factor
service or the heuristic fallback), flattened to the fields it reads. -/
structure Factors where
  base_rate_class : String
  independent_conditions_required : ℤ
  category : String
  confidence_in_analysis : String
deriving DecidableEq

structure MispricingResult where
  rational_estimate : ℚ
  market_price : ℚ
  edge : ℚ
  edge_percent : ℚ
  min_edge_required : ℚ
  is_mispriced : Bool
  edge_quality : String
  base_rate_class : String
  confidence : String
deriving DecidableEq

/-- The rational-estimate pipeline of `calculate_mispricing`
(irrationality.py:376): base rate, structural penalty, category
multiplier, confidence blend, 0.50 cap. -/
def rational_estimate_of (yes_price : ℚ) (factors : Factors) : ℚ :=
  let base0 := BASE_RATES factors.base_rate_class
  let n_conditions := factors.independent_conditions_required
  let base1 :=
    if n_conditions ≥ 3 then base0 * (1/2)
    else if n_conditions = 2 then base0 * (3/4)
    else base0
  let base2 := base1 * CATEGORY_PROBABILITY_MULT factors.category
  let confidence := factors.confidence_in_analysis
  let base3 :=
    if confidence = "low" then base2 * (6/10) + yes_price * (4/10)
    else if confidence = "medium" then base2 * (8/10) + yes_price * (2/10)
    else base2
  min base3 (1/2)

/-- The edge-quality grading of `calculate_mispricing`. -/
def edge_quality_of (edge min_edge : ℚ) : String :=
  if edge > min_edge * 2 then "STRONG"
  else if edge > min_edge then "MODERATE"
  else if edge > 0 then "WEAK"
  else "NONE"

/-- `calculate_mispricing` (irrationality.py:376); `market_question` is
received and never read, as in the source. -/
def calculate_mispricing (market_question : String) (yes_price : ℚ)
    (factors : Factors) : MispricingResult :=
  let rational_estimate := rational_estimate_of yes_price factors
  let edge := yes_price - rational_estimate
  let min_edge := (CATEGORY_BIAS factors.category).min_edge
  { rational_estimate := rational_estimate
    market_price := yes_price
    edge := edge
    edge_percent := edge * 100
    min_edge_required := min_edge
    is_mispriced := edge > min_edge
    edge_quality := edge_quality_of edge min_edge
    base_rate_class := factors.base_rate_class
    confidence := factors.confidence_in_analysis }

/- ═══════════════════════════════════════════════════════════════════
   irrationality.py — `get_combined_signal`
   ═══════════════════════════════════════════════════════════════════ -/

structure CombinedSignal where
  signal_type : String
  signal_emoji : String
  signal_strength : ℚ
  interpretation : String
  action_suggestion : String
  insider_score : ℚ
  insider_position : String
  irrationality_score : ℚ
  is_irrational : Bool
  is_mispriced : Bool
  edge : ℚ
  edge_percent : ℚ
deriving DecidableEq

def emojiFor (signal_type : String) : String :=
  if signal_type = "ALPHA" then "🔥"
  else if signal_type = "CONFLICT" then "⚠️"
  else if signal_type = "INSIDER_CONFIRMED" then "🚨"
  else if signal_type = "CONTRARIAN_INSIDER" then "❓"
  else if signal_type = "INSIDER_ONLY" then "👁️"
  else "📊"

/-- `get_combined_signal` (irrationality.py:451).  An empty
`insider_position` models Python falsiness (`None` / `""` default to
`"YES"`). -/
def get_combined_signal (insider_score : ℚ) (insider_position : String)
    (irrationality_data : IrrationalityResult)
    (mispricing_data : MispricingResult) : CombinedSignal :=
  let position := if insider_position = "" then "YES" else pyUpper insider_position
  let is_mispriced := mispricing_data.is_mispriced
  let edge := mispricing_data.edge
  let irrationality_score := irrationality_data.irrationality_score
  let res : String × ℚ × String × String :=
    if position = "NO" ∧ is_mispriced then
      ("ALPHA", insider_score + irrationality_score,
       "Smart money (NO) confirms YES is overpriced",
       "High conviction: insider + statistics aligned")
    else if position = "YES" ∧ is_mispriced then
      ("CONFLICT", insider_score,
       "Insider buying YES despite statistical overpricing",
       "Requires manual analysis: insider may have real info OR is part of irrational crowd")
    else if position = "YES" ∧ edge < 0 then
      ("INSIDER_CONFIRMED", insider_score + 20,
       "Insider + underpricing aligned — likely real information",
       "Follow the insider: market may be underpricing the event")
    else if position = "NO" ∧ edge < 0 then
      ("CONTRARIAN_INSIDER", insider_score,
       "Insider buying NO on potentially underpriced market",
       "Unusual: insider may see risk not reflected in price")
    else
      ("INSIDER_ONLY", insider_score,
       "Insider activity detected, no clear mispricing",
       "Monitor: insider signal only, no statistical edge")
  { signal_type := res.1
    signal_emoji := emojiFor res.1
    signal_strength := res.2.1
    interpretation := res.2.2.1
    action_suggestion := res.2.2.2
    insider_score := insider_score
    insider_position := position
    irrationality_score := irrationality_score
    is_irrational := irrationality_data.is_irrational
    is_mispriced := is_mispriced
    edge := edge
    edge_percent := mispricing_data.edge_percent }

/- ═══════════════════════════════════════════════════════════════════
   Claims
   ═══════════════════════════════════════════════════════════════════ -/

/-- C1: for every price `p ∈ [0,1]`, `get_effective_odds p "no"` equals
`1 - get_effective_odds p "yes"`, and `get_effective_odds p "yes" = p`:
the normalizer returns the raw YES price for a YES side and its
complement for a NO side. -/
theorem effective_odds_no_yes_complement (p : ℚ) (h0 : 0 ≤ p) (h1 : p ≤ 1) :
    get_effective_odds p "no" = 1 - get_effective_odds p "yes" ∧
    get_effective_odds p "yes" = p := by
  constructor <;> rfl

theorem effective_odds_no_yes_complement_witness :
    (0 : ℚ) ≤ 7/100 ∧ (7 : ℚ)/100 ≤ 1 ∧
    (get_effective_odds (7/100) "no" = 1 - get_effective_odds (7/100) "yes" ∧
     get_effective_odds (7/100) "yes" = 7/100) :=
  ⟨by norm_num, by norm_num,
   effective_odds_no_yes_complement (7/100) (by norm_num) (by norm_num)⟩

/-- C10: with an empty (or `None`) market question, no latency and no
end date, `should_skip_alert` returns `(False, "")` for every
effective-odds value — the LOW_ROI, MARKET_MAKER, ABSURD_MARKET and
IMPOSSIBLE_ODDS rules are all guarded by a non-empty question. -/
theorem skip_alert_empty_question_never_skips (wallet_age_days : ℤ) (odds : ℚ)
    (total_activities : ℤ) (amount : ℚ) (outcome : String) (now : ℤ) :
    should_skip_alert "" wallet_age_days odds total_activities none amount
      none outcome now = (false, SkipReason.NONE) := by
  rfl

/-- C5: `get_combined_signal` returns exactly `"ALPHA"` with strength
`insider_score + irrationality_score` whenever the position is `"NO"`
and the market is mispriced, and for every input the returned
`signal_type` is one of the five signal values — no fallthrough. -/
theorem combined_signal_alpha_and_exhaustive :
    (∀ (s : ℚ) (irr : IrrationalityResult) (mis : MispricingResult),
        mis.is_mispriced = true →
        (get_combined_signal s "NO" irr mis).signal_type = "ALPHA" ∧
        (get_combined_signal s "NO" irr mis).signal_strength =
          s + irr.irrationality_score) ∧
    (∀ (s : ℚ) (pos : String) (irr : IrrationalityResult)
        (mis : MispricingResult),
        (get_combined_signal s pos irr mis).signal_type = "ALPHA" ∨
        (get_combined_signal s pos irr mis).signal_type = "CONFLICT" ∨
        (get_combined_signal s pos irr mis).signal_type = "INSIDER_CONFIRMED" ∨
        (get_combined_signal s pos irr mis).signal_type = "CONTRARIAN_INSIDER" ∨
        (get_combined_signal s pos irr mis).signal_type = "INSIDER_ONLY") := by
  constructor
  · intro s irr mis h
    simp [get_combined_signal, h, pyUpper]
  · intro s pos irr mis
    simp only [get_combined_signal]
    split_ifs <;> simp

theorem combined_signal_alpha_and_exhaustive_witness :
    (MispricingResult.mk (1/10) (3/10) (2/10) 20 (3/100) true "STRONG" "rare"
        "high").is_mispriced = true ∧
    (get_combined_signal 50 "NO"
        (IrrationalityResult.mk 40 [] "meme" ⟨"very_high", 7/100, 3/100⟩ true)
        (MispricingResult.mk (1/10) (3/10) (2/10) 20 (3/100) true "STRONG"
          "rare" "high")).signal_type = "ALPHA" ∧
    (get_combined_signal 50 "NO"
        (IrrationalityResult.mk 40 [] "meme" ⟨"very_high", 7/100, 3/100⟩ true)
        (MispricingResult.mk (1/10) (3/10) (2/10) 20 (3/100) true "STRONG"
          "rare" "high")).signal_strength = 50 + 40 :=
  ⟨rfl,
   (combined_signal_alpha_and_exhaustive.1 50
      (IrrationalityResult.mk 40 [] "meme" ⟨"very_high", 7/100, 3/100⟩ true)
      (MispricingResult.mk (1/10) (3/10) (2/10) 20 (3/100) true "STRONG"
        "rare" "high") rfl).1,
   ((combined_signal_alpha_and_exhaustive.1 50
      (IrrationalityResult.mk 40 [] "meme" ⟨"very_high", 7/100, 3/100⟩ true)
      (MispricingResult.mk (1/10) (3/10) (2/10) 20 (3/100) true "STRONG"
        "rare" "high") rfl).2)⟩

/-- Every category's minimum-edge threshold is positive. -/
lemma category_min_edge_pos (c : String) : 0 < (CATEGORY_BIAS c).min_edge := by
  unfold CATEGORY_BIAS
  split_ifs <;> norm_num

/-- Field values of `calculate_mispricing`. -/
lemma calculate_mispricing_fields (q : String) (p : ℚ) (factors : Factors) :
    (calculate_mispricing q p factors).rational_estimate =
        rational_estimate_of p factors ∧
    (calculate_mispricing q p factors).edge =
        p - rational_estimate_of p factors ∧
    (calculate_mispricing q p factors).min_edge_required =
        (CATEGORY_BIAS factors.category).min_edge ∧
    (calculate_mispricing q p factors).is_mispriced =
        decide ((CATEGORY_BIAS factors.category).min_edge <
          p - rational_estimate_of p factors) ∧
    (calculate_mispricing q p factors).edge_quality =
        edge_quality_of (p - rational_estimate_of p factors)
          (CATEGORY_BIAS factors.category).min_edge :=
  ⟨rfl, rfl, rfl, rfl, rfl⟩

/-- The four quality grades, characterized (for a positive threshold). -/
lemma edge_quality_of_iff (e m : ℚ) (hm : 0 < m) :
    (edge_quality_of e m = "STRONG" ↔ 2 * m < e) ∧
    (edge_quality_of e m = "MODERATE" ↔ (m < e ∧ e ≤ 2 * m)) ∧
    (edge_quality_of e m = "WEAK" ↔ (0 < e ∧ e ≤ m)) ∧
    (edge_quality_of e m = "NONE" ↔ e ≤ 0) := by
  unfold edge_quality_of
  split_ifs with hA hB hC <;>
    refine ⟨?_, ?_, ?_, ?_⟩ <;> simp <;>
    first
      | linarith
      | (intro h; linarith)
      | (refine ⟨by linarith, by linarith⟩)

/-- C6: `calculate_mispricing` caps the rational estimate at 0.50, sets
`edge = yes_price - rational_estimate`, flags `is_mispriced` exactly when
the edge exceeds the category's minimum-edge threshold, and grades
`edge_quality` as STRONG / MODERATE / WEAK / NONE by the stated edge
intervals. -/
theorem mispricing_cap_edge_quality (q : String) (factors : Factors)
    (yes_price : ℚ) (h0 : 0 ≤ yes_price) (h1 : yes_price ≤ 1) :
    (calculate_mispricing q yes_price factors).rational_estimate ≤ 1/2 ∧
    (calculate_mispricing q yes_price factors).edge =
      yes_price - (calculate_mispricing q yes_price factors).rational_estimate ∧
    ((calculate_mispricing q yes_price factors).is_mispriced = true ↔
      (calculate_mispricing q yes_price factors).min_edge_required <
        (calculate_mispricing q yes_price factors).edge) ∧
    ((calculate_mispricing q yes_price factors).edge_quality = "STRONG" ↔
      2 * (calculate_mispricing q yes_price factors).min_edge_required <
        (calculate_mispricing q yes_price factors).edge) ∧
    ((calculate_mispricing q yes_price factors).edge_quality = "MODERATE" ↔
      ((calculate_mispricing q yes_price factors).min_edge_required <
        (calculate_mispricing q yes_price factors).edge ∧
       (calculate_mispricing q yes_price factors).edge ≤
        2 * (calculate_mispricing q yes_price factors).min_edge_required)) ∧
    ((calculate_mispricing q yes_price factors).edge_quality = "WEAK" ↔
      (0 < (calculate_mispricing q yes_price factors).edge ∧
       (calculate_mispricing q yes_price factors).edge ≤
        (calculate_mispricing q yes_price factors).min_edge_required)) ∧
    ((calculate_mispricing q yes_price factors).edge_quality = "NONE" ↔
      (calculate_mispricing q yes_price factors).edge ≤ 0) := by
  obtain ⟨hre, hedge, hmin, hmis, hq⟩ :=
    calculate_mispricing_fields q yes_price factors
  have hm := category_min_edge_pos factors.category
  obtain ⟨hS, hM, hW, hN⟩ :=
    edge_quality_of_iff (yes_price - rational_estimate_of yes_price factors)
      (CATEGORY_BIAS factors.category).min_edge hm
  rw [hre, hedge, hmin, hmis, hq]
  refine ⟨min_le_right _ _, by ring, ?_, hS, hM, hW, hN⟩
  simp [decide_eq_true_iff]

theorem mispricing_cap_edge_quality_witness :
    (0 : ℚ) ≤ 3/10 ∧ (3 : ℚ)/10 ≤ 1 ∧
    ((calculate_mispricing "q" (3/10) ⟨"rare", 2, "meme", "high"⟩).rational_estimate
        ≤ 1/2 ∧
     (calculate_mispricing "q" (3/10) ⟨"rare", 2, "meme", "high"⟩).edge =
       3/10 - (calculate_mispricing "q" (3/10)
         ⟨"rare", 2, "meme", "high"⟩).rational_estimate ∧
     ((calculate_mispricing "q" (3/10) ⟨"rare", 2, "meme", "high"⟩).is_mispriced
        = true ↔
       (calculate_mispricing "q" (3/10)
          ⟨"rare", 2, "meme", "high"⟩).min_edge_required <
         (calculate_mispricing "q" (3/10) ⟨"rare", 2, "meme", "high"⟩).edge) ∧
     ((calculate_mispricing "q" (3/10) ⟨"rare", 2, "meme", "high"⟩).edge_quality
        = "STRONG" ↔
       2 * (calculate_mispricing "q" (3/10)
          ⟨"rare", 2, "meme", "high"⟩).min_edge_required <
         (calculate_mispricing "q" (3/10) ⟨"rare", 2, "meme", "high"⟩).edge) ∧
     ((calculate_mispricing "q" (3/10) ⟨"rare", 2, "meme", "high"⟩).edge_quality
        = "MODERATE" ↔
       ((calculate_mispricing "q" (3/10)
           ⟨"rare", 2, "meme", "high"⟩).min_edge_required <
          (calculate_mispricing "q" (3/10) ⟨"rare", 2, "meme", "high"⟩).edge ∧
        (calculate_mispricing "q" (3/10) ⟨"rare", 2, "meme", "high"⟩).edge ≤
          2 * (calculate_mispricing "q" (3/10)
            ⟨"rare", 2, "meme", "high"⟩).min_edge_required)) ∧
     ((calculate_mispricing "q" (3/10) ⟨"rare", 2, "meme", "high"⟩).edge_quality
        = "WEAK" ↔
       (0 < (calculate_mispricing "q" (3/10) ⟨"rare", 2, "meme", "high"⟩).edge ∧
        (calculate_mispricing "q" (3/10) ⟨"rare", 2, "meme", "high"⟩).edge ≤
          (calculate_mispricing "q" (3/10)
            ⟨"rare", 2, "meme", "high"⟩).min_edge_required)) ∧
     ((calculate_mispricing "q" (3/10) ⟨"rare", 2, "meme", "high"⟩).edge_quality
        = "NONE" ↔
       (calculate_mispricing "q" (3/10) ⟨"rare", 2, "meme", "high"⟩).edge ≤ 0)) :=
  ⟨by norm_num, by norm_num,
   mispricing_cap_edge_quality "q" ⟨"rare", 2, "meme", "high"⟩ (3/10)
     (by norm_num) (by norm_num)⟩

lemma longshotPoints_nonneg (c : String) (p : ℚ) : 0 ≤ longshotPoints c p := by
  unfold longshotPoints
  split_ifs <;> norm_num

lemma volumePoints_nonneg (v24 v30 : ℚ) : 0 ≤ volumePoints v24 v30 := by
  unfold volumePoints
  split_ifs <;> norm_num

lemma biasPoints_nonneg (c : String) : 0 ≤ biasPoints c := by
  unfold biasPoints
  split_ifs <;> norm_num

lemma movePoints_nonneg (chg : ℚ) : 0 ≤ movePoints chg := by
  unfold movePoints
  split_ifs <;> norm_num

lemma memePoints_nonneg (low : List Char) : 0 ≤ memePoints low := by
  unfold memePoints
  split_ifs <;> norm_num

lemma crisisPoints_nonneg (low : List Char) : 0 ≤ crisisPoints low := by
  unfold crisisPoints
  split_ifs <;> norm_num

lemma edgePoints_nonneg (ep : ℚ) : 0 ≤ edgePoints ep := by
  unfold edgePoints
  split_ifs <;> norm_num

/-- C9: `calculate_irrationality_score` always returns a score in
`[0, 100]`, and `is_irrational` holds exactly when that score is at
least 30. -/
theorem irrationality_score_in_range_iff_irrational (q : String)
    (p v24 v30 chg ep : ℚ) :
    0 ≤ (calculate_irrationality_score q p v24 v30 chg ep).irrationality_score ∧
    (calculate_irrationality_score q p v24 v30 chg ep).irrationality_score ≤ 100 ∧
    ((calculate_irrationality_score q p v24 v30 chg ep).is_irrational = true ↔
      30 ≤ (calculate_irrationality_score q p v24 v30 chg ep).irrationality_score) := by
  have hs : (calculate_irrationality_score q p v24 v30 chg ep).irrationality_score =
      min (longshotPoints (classify_category q) p + volumePoints v24 v30 +
           biasPoints (classify_category q) + movePoints chg +
           memePoints (q.data.map Char.toLower) +
           crisisPoints (q.data.map Char.toLower) + edgePoints ep) 100 := rfl
  have hi : (calculate_irrationality_score q p v24 v30 chg ep).is_irrational =
      decide ((calculate_irrationality_score q p v24 v30 chg ep).irrationality_score
        ≥ 30) := rfl
  have hnn : (0 : ℚ) ≤ longshotPoints (classify_category q) p +
      volumePoints v24 v30 + biasPoints (classify_category q) + movePoints chg +
      memePoints (q.data.map Char.toLower) + crisisPoints (q.data.map Char.toLower) +
      edgePoints ep := by
    have := longshotPoints_nonneg (classify_category q) p
    have := volumePoints_nonneg v24 v30
    have := biasPoints_nonneg (classify_category q)
    have := movePoints_nonneg chg
    have := memePoints_nonneg (q.data.map Char.toLower)
    have := crisisPoints_nonneg (q.data.map Char.toLower)
    have := edgePoints_nonneg ep
    linarith
  refine ⟨?_, ?_, ?_⟩
  · rw [hs]
    exact le_min hnn (by norm_num)
  · rw [hs]
    exact min_le_right _ _
  · rw [hi]
    simp [ge_iff_le]

/-- Update equation: existing row, no (or non-positive) new latency. -/
lemma update_wallet_stats_eq_nolat (row : WalletRow) (td : TradeData) (a : ℚ)
    (havg : row.avg_latency_seconds = some a) (ha : 0 ≤ a)
    (hvol : 0 ≤ row.total_volume) (hsize : 0 ≤ td.size)
    (hls : td.latency_seconds = none) :
    update_wallet_stats (some row) td = some
      { total_trades := row.total_trades + 1
        pre_event_trades :=
          row.pre_event_trades + (if td.is_pre_event then 1 else 0)
        total_volume := row.total_volume + td.size
        avg_latency_seconds := some a
        insider_score := calculate_insider_score
          (row.pre_event_trades + (if td.is_pre_event then 1 else 0))
          (row.total_trades + 1) a
        classification := classify_wallet
          (calculate_insider_score
            (row.pre_event_trades + (if td.is_pre_event then 1 else 0))
            (row.total_trades + 1) a)
          (row.pre_event_trades + (if td.is_pre_event then 1 else 0))
          (row.total_trades + 1) } := by
  simp only [update_wallet_stats, havg, hls, Bool.false_eq_true, if_false]
  rw [if_neg]
  push_neg
  exact ⟨by linarith, ha⟩

/-- Update equation: existing row, new latency present but not
positive (Python falsiness of `0` included). -/
lemma update_wallet_stats_eq_nonposlat (row : WalletRow) (td : TradeData)
    (a v : ℚ) (havg : row.avg_latency_seconds = some a) (ha : 0 ≤ a)
    (hvol : 0 ≤ row.total_volume) (hsize : 0 ≤ td.size)
    (hls : td.latency_seconds = some v) (hv : ¬ 0 < v) :
    update_wallet_stats (some row) td = some
      { total_trades := row.total_trades + 1
        pre_event_trades :=
          row.pre_event_trades + (if td.is_pre_event then 1 else 0)
        total_volume := row.total_volume + td.size
        avg_latency_seconds := some a
        insider_score := calculate_insider_score
          (row.pre_event_trades + (if td.is_pre_event then 1 else 0))
          (row.total_trades + 1) a
        classification := classify_wallet
          (calculate_insider_score
            (row.pre_event_trades + (if td.is_pre_event then 1 else 0))
            (row.total_trades + 1) a)
          (row.pre_event_trades + (if td.is_pre_event then 1 else 0))
          (row.total_trades + 1) } := by
  have hdec : (decide (v ≠ 0) && decide (v > 0)) = false := by
    simp [hv]
  simp only [update_wallet_stats, havg, hls, hdec, Bool.false_eq_true, if_false]
  rw [if_neg]
  push_neg
  exact ⟨by linarith, ha⟩

/-- Update equation: existing row, positive new latency — the running
average weights the old mean by the full previous trade count. -/
lemma update_wallet_stats_eq_poslat (row : WalletRow) (td : TradeData)
    (a v : ℚ) (havg : row.avg_latency_seconds = some a) (ha : 0 ≤ a)
    (hvol : 0 ≤ row.total_volume) (hsize : 0 ≤ td.size)
    (ht : 0 ≤ row.total_trades)
    (hls : td.latency_seconds = some v) (hv : 0 < v) :
    update_wallet_stats (some row) td = some
      { total_trades := row.total_trades + 1
        pre_event_trades :=
          row.pre_event_trades + (if td.is_pre_event then 1 else 0)
        total_volume := row.total_volume + td.size
        avg_latency_seconds :=
          some ((a * (row.total_trades : ℚ) + v) / ((row.total_trades : ℚ) + 1))
        insider_score := calculate_insider_score
          (row.pre_event_trades + (if td.is_pre_event then 1 else 0))
          (row.total_trades + 1)
          ((a * (row.total_trades : ℚ) + v) / ((row.total_trades : ℚ) + 1))
        classification := classify_wallet
          (calculate_insider_score
            (row.pre_event_trades + (if td.is_pre_event then 1 else 0))
            (row.total_trades + 1)
            ((a * (row.total_trades : ℚ) + v) / ((row.total_trades : ℚ) + 1)))
          (row.pre_event_trades + (if td.is_pre_event then 1 else 0))
          (row.total_trades + 1) } := by
  have hdec : (decide (v ≠ 0) && decide (v > 0)) = true := by
    simp [hv, ne_of_gt hv]
  have htq : (0 : ℚ) ≤ (row.total_trades : ℚ) := by exact_mod_cast ht
  simp only [update_wallet_stats, havg, hls, hdec, if_true, Option.getD_some,
    Int.cast_add, Int.cast_one]
  rw [if_neg]
  push_neg
  refine ⟨by linarith, ?_⟩
  have hnum : 0 ≤ a * (row.total_trades : ℚ) + v := by nlinarith
  have hden : (0 : ℚ) < (row.total_trades : ℚ) + 1 := by linarith
  positivity

/-- C4 (amended): for an existing wallet row with a non-NULL stored
average latency and non-negative stored fields, `update_wallet_stats`
advances the counters and the volume, folds the new latency into the
average only when `latency_seconds > 0` — dividing by the full new
trade count, `(old_avg*old_total + lat)/(old_total+1)`, which is not
the running mean restricted to latency-bearing trades — leaves the
average unchanged otherwise, and recomputes `insider_score` with
`calculate_insider_score` from the updated aggregate fields of the
row it stores.  The first trade of a new wallet instead inserts
`insider_score = 0` without recomputation (see the counterexample). -/
theorem update_wallet_stats_running_mean_and_rescore (row : WalletRow)
    (td : TradeData) (a : ℚ) (havg : row.avg_latency_seconds = some a)
    (ha : 0 ≤ a) (hvol : 0 ≤ row.total_volume) (hsize : 0 ≤ td.size)
    (ht : 0 ≤ row.total_trades) :
    ∃ row', update_wallet_stats (some row) td = some row' ∧
      row'.total_trades = row.total_trades + 1 ∧
      row'.pre_event_trades =
        row.pre_event_trades + (if td.is_pre_event then 1 else 0) ∧
      row'.total_volume = row.total_volume + td.size ∧
      row'.avg_latency_seconds = some (match td.latency_seconds with
        | some v => if 0 < v then
            (a * (row.total_trades : ℚ) + v) / ((row.total_trades : ℚ) + 1)
          else a
        | none => a) ∧
      row'.insider_score = calculate_insider_score row'.pre_event_trades
        row'.total_trades (row'.avg_latency_seconds.getD 0) := by
  cases hls : td.latency_seconds with
  | none =>
      exact ⟨_, update_wallet_stats_eq_nolat row td a havg ha hvol hsize hls,
        rfl, rfl, rfl, rfl, rfl⟩
  | some v =>
      by_cases hv : 0 < v
      · refine ⟨_, update_wallet_stats_eq_poslat row td a v havg ha hvol hsize
          ht hls hv, rfl, rfl, rfl, ?_, rfl⟩
        simp [hv]
      · refine ⟨_, update_wallet_stats_eq_nonposlat row td a v havg ha hvol
          hsize hls hv, rfl, rfl, rfl, ?_, rfl⟩
        simp [hv]

theorem update_wallet_stats_running_mean_and_rescore_witness :
    (WalletRow.mk 2 1 500 (some 600) 40 "Retail").avg_latency_seconds =
        some 600 ∧
    (0 : ℚ) ≤ 600 ∧
    (0 : ℚ) ≤ (WalletRow.mk 2 1 500 (some 600) 40 "Retail").total_volume ∧
    (0 : ℚ) ≤ (TradeData.mk true 100 (some 1800)).size ∧
    (0 : ℤ) ≤ (WalletRow.mk 2 1 500 (some 600) 40 "Retail").total_trades ∧
    (∃ row', update_wallet_stats
        (some (WalletRow.mk 2 1 500 (some 600) 40 "Retail"))
        (TradeData.mk true 100 (some 1800)) = some row' ∧
      row'.total_trades = (WalletRow.mk 2 1 500 (some 600) 40
        "Retail").total_trades + 1 ∧
      row'.pre_event_trades = (WalletRow.mk 2 1 500 (some 600) 40
          "Retail").pre_event_trades +
        (if (TradeData.mk true 100 (some 1800)).is_pre_event then 1 else 0) ∧
      row'.total_volume = (WalletRow.mk 2 1 500 (some 600) 40
          "Retail").total_volume + (TradeData.mk true 100 (some 1800)).size ∧
      row'.avg_latency_seconds = some
        (match (TradeData.mk true 100 (some 1800)).latency_seconds with
         | some v => if 0 < v then
             (600 * ((WalletRow.mk 2 1 500 (some 600) 40
                "Retail").total_trades : ℚ) + v) /
               (((WalletRow.mk 2 1 500 (some 600) 40
                 "Retail").total_trades : ℚ) + 1)
           else 600
         | none => 600) ∧
      row'.insider_score = calculate_insider_score row'.pre_event_trades
        row'.total_trades (row'.avg_latency_seconds.getD 0)) :=
  ⟨rfl, by norm_num, by norm_num, by norm_num, by norm_num,
   update_wallet_stats_running_mean_and_rescore
     (WalletRow.mk 2 1 500 (some 600) 40 "Retail")
     (TradeData.mk true 100 (some 1800)) 600 rfl (by norm_num) (by norm_num)
     (by norm_num) (by norm_num)⟩

/-- C4 counterexample: the claim as stated fails on the code in two
places.  (1) The first trade of a new wallet (here: pre-event, latency
3600 s) is inserted with `insider_score = 0`, not with the recomputed
`calculate_insider_score 1 1 3600 = 100`.  (2) After a no-latency trade
(stored average 0) and a latency-100 trade, the stored average is
`(0*1 + 100)/2 = 50`, while the running mean restricted to trades with
a defined latency would be `100`. -/
theorem update_wallet_stats_counterexample :
    (update_wallet_stats none (TradeData.mk true 100 (some 3600))).map
        (fun r => r.insider_score) = some 0 ∧
    calculate_insider_score 1 1 3600 = 100 ∧
    (0 : ℚ) ≠ 100 ∧
    (applyTrades none [TradeData.mk false 10 (some 0),
        TradeData.mk false 10 (some 100)]).map
        (fun r => r.avg_latency_seconds) = some (some 50) ∧
    (50 : ℚ) ≠ 100 := by
  refine ⟨rfl, by norm_num [calculate_insider_score, round2], by norm_num,
    ?_, by norm_num⟩
  have h1 : update_wallet_stats none (TradeData.mk false 10 (some 0)) =
      some (WalletRow.mk 1 0 10 (some 0) 0 "New") := by
    norm_num [update_wallet_stats]
  have h2 := update_wallet_stats_eq_poslat (WalletRow.mk 1 0 10 (some 0) 0 "New")
    (TradeData.mk false 10 (some 100)) 0 100 rfl le_rfl (by norm_num)
    (by norm_num) (by norm_num) rfl (by norm_num)
  simp only [applyTrades, List.foldl, h1, h2, Option.map]
  norm_num

lemma round2_bounds (q : ℚ) (h0 : 0 ≤ q) (h1 : q ≤ 100) :
    0 ≤ round2 q ∧ round2 q ≤ 100 := by
  unfold round2
  constructor
  · have : (0 : ℤ) ≤ round (q * 100) := by
      rw [round_eq]
      positivity
    positivity
  · have h2 : round (q * 100) ≤ 10000 := by
      rw [round_eq]
      have : q * 100 + 1 / 2 ≤ 10000 + 1/2 := by linarith
      calc ⌊q * 100 + 1 / 2⌋ ≤ ⌊(10000 : ℚ) + 1/2⌋ := Int.floor_le_floor this
        _ = 10000 := by norm_num [Int.floor_eq_iff]
    have : ((round (q * 100) : ℤ) : ℚ) ≤ 10000 := by exact_mod_cast h2
    linarith

lemma calculate_insider_score_bounds (pre total : ℤ) (avg : ℚ)
    (h0 : 0 ≤ pre) (h1 : pre ≤ total) :
    0 ≤ calculate_insider_score pre total avg ∧
    calculate_insider_score pre total avg ≤ 100 := by
  unfold calculate_insider_score
  have hpre : 0 ≤ (if 0 < total then (pre : ℚ) / (total : ℚ) else 0) ∧
      (if 0 < total then (pre : ℚ) / (total : ℚ) else 0) ≤ 1 := by
    split_ifs with h
    · have htq : (0 : ℚ) < (total : ℚ) := by exact_mod_cast h
      have hpq : (0 : ℚ) ≤ (pre : ℚ) := by exact_mod_cast h0
      have hplq : (pre : ℚ) ≤ (total : ℚ) := by exact_mod_cast h1
      exact ⟨div_nonneg hpq htq.le, (div_le_one htq).mpr hplq⟩
    · norm_num
  set ratio := (if 0 < total then (pre : ℚ) / (total : ℚ) else 0) with hratio
  have hmin1 : 0 ≤ min (ratio * 100) 100 ∧ min (ratio * 100) 100 ≤ 100 :=
    ⟨le_min (by nlinarith [hpre.1]) (by norm_num), min_le_right _ _⟩
  have hlat : 0 ≤ (if 0 < avg then min (avg / 1800 * 100) 100 * (1/2) else 0) ∧
      (if 0 < avg then min (avg / 1800 * 100) 100 * (1/2) else 0) ≤ 50 := by
    split_ifs with h
    · have : 0 ≤ min (avg / 1800 * 100) 100 := le_min (by positivity) (by norm_num)
      have h2 : min (avg / 1800 * 100) 100 ≤ 100 := min_le_right _ _
      constructor <;> nlinarith
    · norm_num
  apply round2_bounds
  · nlinarith [hmin1.1, hlat.1]
  · nlinarith [hmin1.2, hlat.2]

/-- The invariant maintained by `update_wallet_stats`. -/
def WalletInv (r : WalletRow) : Prop :=
  0 ≤ r.pre_event_trades ∧ r.pre_event_trades ≤ r.total_trades ∧
  0 ≤ r.total_trades ∧ 0 ≤ r.insider_score ∧ r.insider_score ≤ 100

lemma update_none_inv (td : TradeData) :
    update_wallet_stats none td = none ∨
    ∃ r, update_wallet_stats none td = some r ∧ WalletInv r := by
  simp only [update_wallet_stats]
  split_ifs <;>
    first
      | exact Or.inl rfl
      | (refine Or.inr ⟨_, rfl, ?_, ?_, ?_, ?_, ?_⟩ <;> dsimp only <;> norm_num)

lemma update_some_inv (r : WalletRow) (td : TradeData) (hr : WalletInv r) :
    ∃ r', update_wallet_stats (some r) td = some r' ∧ WalletInv r' := by
  obtain ⟨h0, h1, h2, h3, h4⟩ := hr
  cases havg : r.avg_latency_seconds with
  | none =>
      refine ⟨r, ?_, h0, h1, h2, h3, h4⟩
      simp [update_wallet_stats, havg]
  | some a =>
      simp only [update_wallet_stats, havg]
      split_ifs <;>
        first
          | exact ⟨r, rfl, h0, h1, h2, h3, h4⟩
          | (refine ⟨_, rfl, ?_, ?_, ?_, ?_, ?_⟩ <;> dsimp only <;>
              first
                | omega
                | exact (calculate_insider_score_bounds _ _ _ (by omega)
                    (by omega)).1
                | exact (calculate_insider_score_bounds _ _ _ (by omega)
                    (by omega)).2)

lemma applyTrades_inv (tds : List TradeData) :
    ∀ st : Option WalletRow,
      (st = none ∨ ∃ r, st = some r ∧ WalletInv r) →
      ∀ r', applyTrades st tds = some r' → WalletInv r' := by
  induction tds with
  | nil =>
      intro st hst r' h
      simp only [applyTrades, List.foldl] at h
      rcases hst with hst | ⟨r, hst, hr⟩
      · rw [hst] at h
        cases h
      · rw [hst] at h
        cases h
        exact hr
  | cons td rest ih =>
      intro st hst r' h
      have hstep : applyTrades st (td :: rest) =
          applyTrades (update_wallet_stats st td) rest := rfl
      rw [hstep] at h
      refine ih (update_wallet_stats st td) ?_ r' h
      rcases hst with hst | ⟨r, hst, hr⟩
      · rw [hst]
        exact update_none_inv td
      · rw [hst]
        obtain ⟨r'', heq, hinv⟩ := update_some_inv r td hr
        exact Or.inr ⟨r'', heq, hinv⟩

/-- C7: every wallet row reachable from a fresh (absent) record by any
sequence of `update_wallet_stats` calls satisfies
`pre_event_trades ≤ total_trades` and `0 ≤ insider_score ≤ 100`. -/
theorem wallet_stats_reachable_invariant (tds : List TradeData)
    (r : WalletRow) (h : applyTrades none tds = some r) :
    r.pre_event_trades ≤ r.total_trades ∧
    0 ≤ r.insider_score ∧ r.insider_score ≤ 100 := by
  obtain ⟨_, hineq, _, hs0, hs100⟩ := applyTrades_inv tds none (Or.inl rfl) r h
  exact ⟨hineq, hs0, hs100⟩

theorem wallet_stats_reachable_invariant_witness :
    applyTrades none [TradeData.mk true 100 (some 60)] =
      some (WalletRow.mk 1 1 100 (some 60) 0 "New") ∧
    ((WalletRow.mk 1 1 100 (some 60) 0 "New").pre_event_trades ≤
       (WalletRow.mk 1 1 100 (some 60) 0 "New").total_trades ∧
     0 ≤ (WalletRow.mk 1 1 100 (some 60) 0 "New").insider_score ∧
     (WalletRow.mk 1 1 100 (some 60) 0 "New").insider_score ≤ 100) := by
  have hEq : applyTrades none [TradeData.mk true 100 (some 60)] =
      some (WalletRow.mk 1 1 100 (some 60) 0 "New") := by
    norm_num [applyTrades, update_wallet_stats]
  exact ⟨hEq, wallet_stats_reachable_invariant
    [TradeData.mk true 100 (some 60)] (WalletRow.mk 1 1 100 (some 60) 0 "New")
    hEq⟩

/-- C8 (code bug): three no-latency, non-pre-event trade updates applied
to a fresh wallet in two different orders.  The first insert stores a
NULL `avg_latency_seconds`; every later update then raises `TypeError`
(`None * count`, or `None > 0` inside `calculate_insider_score`), is
rolled back by the generic exception handler, and is silently dropped.
The final `(total_trades, total_volume)` is therefore `(1, size of the
first trade)` — order-dependent — instead of the claimed
order-independent `(3, total size)`. -/
theorem update_wallet_stats_order_dependent :
    (applyTrades none [TradeData.mk false 10 none, TradeData.mk false 20 none,
        TradeData.mk false 30 none]).map
        (fun r => (r.total_trades, r.total_volume)) = some (1, 10) ∧
    (applyTrades none [TradeData.mk false 20 none, TradeData.mk false 10 none,
        TradeData.mk false 30 none]).map
        (fun r => (r.total_trades, r.total_volume)) = some (1, 20) ∧
    ((1 : ℤ), (10 : ℚ)) ≠ ((1 : ℤ), (20 : ℚ)) := by
  refine ⟨?_, ?_, by norm_num⟩ <;>
    norm_num [applyTrades, update_wallet_stats]

/-- With no latency, a non-HFT title, no extractable title date and no
end date, `should_skip_alert` reduces to the late filter cascade. -/
lemma should_skip_to_lateFilters (q : String) (age acts : ℤ) (odds amt : ℚ)
    (outcome : String) (now : ℤ)
    (h15 : is_15min_market q = false)
    (hext : extract_event_date_from_title q now = none) :
    should_skip_alert q age odds acts none amt none outcome now =
      lateFilters q (get_effective_odds odds outcome) := by
  have hed : (if q ≠ "" then extract_event_date_from_title q now else none)
      = none := by
    split_ifs with h
    · exact hext
    · rfl
  simp only [should_skip_alert, latencyTrigger, eventDateDays, hed, h15,
    Bool.and_false, Bool.false_eq_true, if_false]

/-- The LOW_ROI rule of the late filter cascade. -/
lemma lateFilters_lowroi (q : String) (e : ℚ) (hq : q ≠ "")
    (habs : absurdHit q = false) (h9 : 9/10 ≤ e) (h10 : (1 - e) / e < 1/10) :
    lateFilters q e = (true, SkipReason.LOW_ROI) := by
  simp only [lateFilters, if_neg hq, habs, Bool.false_eq_true, if_false]
  rw [if_pos ⟨h9, h10⟩]

/-- The MARKET_MAKER rule of the late filter cascade. -/
lemma lateFilters_marketmaker (q : String) (e : ℚ) (hq : q ≠ "")
    (habs : absurdHit q = false) (hnot : ¬(9/10 ≤ e ∧ (1 - e) / e < 1/10))
    (hmm : 97/100 ≤ e ∨ e ≤ 3/100) :
    lateFilters q e = (true, SkipReason.MARKET_MAKER) := by
  simp only [lateFilters, if_neg hq, habs, Bool.false_eq_true, if_false]
  rw [if_neg hnot, if_pos hmm]

/-- C2 (amended): for a non-empty market question matching no earlier
veto rule and no extractable event date, `should_skip_alert` at
effective odds 0.975 returns skip with the LOW_ROI reason — the LOW_ROI
rule precedes the high-side MARKET_MAKER rule and fires for every
effective odds above 10/11, so the claimed MARKET_MAKER reason is
unreachable there — at 0.94 it likewise returns LOW_ROI, and the
MARKET_MAKER reason remains reachable on the low side (effective odds
0.02). -/
theorem skip_alert_lowroi_shadows_market_maker (q : String) (age acts : ℤ)
    (amt : ℚ) (now : ℤ) (hq : q ≠ "")
    (h15 : is_15min_market q = false)
    (hext : extract_event_date_from_title q now = none)
    (habs : absurdHit q = false) :
    should_skip_alert q age (39/40) acts none amt none "yes" now =
      (true, SkipReason.LOW_ROI) ∧
    should_skip_alert q age (47/50) acts none amt none "yes" now =
      (true, SkipReason.LOW_ROI) ∧
    should_skip_alert q age (1/50) acts none amt none "yes" now =
      (true, SkipReason.MARKET_MAKER) := by
  have heff : ∀ p : ℚ, get_effective_odds p "yes" = p := fun _ => rfl
  refine ⟨?_, ?_, ?_⟩ <;>
    rw [should_skip_to_lateFilters q age acts _ amt "yes" now h15 hext, heff]
  · exact lateFilters_lowroi q _ hq habs (by norm_num) (by norm_num)
  · exact lateFilters_lowroi q _ hq habs (by norm_num) (by norm_num)
  · exact lateFilters_marketmaker q _ hq habs (by norm_num) (by norm_num)

theorem skip_alert_lowroi_shadows_market_maker_witness :
    ("Will Candidate X win the primary" ≠ "") ∧
    is_15min_market "Will Candidate X win the primary" = false ∧
    extract_event_date_from_title "Will Candidate X win the primary"
      1767225600 = none ∧
    absurdHit "Will Candidate X win the primary" = false ∧
    (should_skip_alert "Will Candidate X win the primary" 2 (39/40) 2 none
        1000 none "yes" 1767225600 = (true, SkipReason.LOW_ROI) ∧
     should_skip_alert "Will Candidate X win the primary" 2 (47/50) 2 none
        1000 none "yes" 1767225600 = (true, SkipReason.LOW_ROI) ∧
     should_skip_alert "Will Candidate X win the primary" 2 (1/50) 2 none
        1000 none "yes" 1767225600 = (true, SkipReason.MARKET_MAKER)) :=
  ⟨by decide, by decide, by decide, by decide,
   skip_alert_lowroi_shadows_market_maker "Will Candidate X win the primary"
     2 2 1000 1767225600 (by decide) (by decide) (by decide) (by decide)⟩

/-- C2 counterexample: at effective odds 0.975 on a plain market
question (no other veto applies), `should_skip_alert` does skip, but
with the LOW_ROI reason, not the MARKET_MAKER reason the claim names. -/
theorem skip_alert_975_not_market_maker :
    should_skip_alert "Will Candidate X win the primary" 2 (39/40) 2 none
      1000 none "yes" 1767225600 = (true, SkipReason.LOW_ROI) ∧
    SkipReason.LOW_ROI ≠ SkipReason.MARKET_MAKER := by
  constructor
  · rw [should_skip_to_lateFilters "Will Candidate X win the primary" 2 2
      (39/40) 1000 "yes" 1767225600 (by decide) (by decide),
      show get_effective_odds (39/40) "yes" = 39/40 from rfl]
    exact lateFilters_lowroi _ _ (by decide) (by decide) (by norm_num)
      (by norm_num)
  · decide

/-- With no latency, a non-HFT title, no extractable title date, an end
date within today/tomorrow and no crypto keyword in the title,
`should_skip_alert` fires the SHORT_TERM_MARKET filter. -/
lemma should_skip_short_term (q : String) (age acts : ℤ) (odds amt : ℚ)
    (outcome : String) (now : ℤ) (es : String) (dt : IsoDT)
    (h15 : is_15min_market q = false)
    (hext : extract_event_date_from_title q now = none)
    (hparse : parseIso es = some dt)
    (hcr : (crypto_keywords.any fun kw =>
        containsSub kw.data (q.data.map Char.toLower)) = false)
    (hshort : epochDay dt.epoch ≤ epochDay now + 1) :
    should_skip_alert q age odds acts (some es) amt none outcome now =
      (true, SkipReason.SHORT_TERM_MARKET) := by
  have hed : (if q ≠ "" then extract_event_date_from_title q now else none)
      = none := by
    split_ifs with h
    · exact hext
    · rfl
  simp only [should_skip_alert, latencyTrigger, eventDateDays, hed, h15,
    hparse, Option.map_some', hcr, Bool.and_false, Bool.false_and,
    Bool.false_eq_true, if_false]
  rw [if_pos hshort]

/-- `calculate_timing_score` fires on an aware end date strictly
between 0 and 24 hours ahead. -/
lemma calculate_timing_score_fires (es : String) (now : ℤ) (dt : IsoDT)
    (hne : es ≠ "") (hp : parseIso es = some dt) (hw : dt.aware = true)
    (h1 : 0 < ((dt.epoch - now : ℤ) : ℚ) / 3600)
    (h2 : ((dt.epoch - now : ℤ) : ℚ) / 3600 < 24) :
    calculate_timing_score (some es) now = 15 := by
  simp only [calculate_timing_score, hp, hw, if_neg hne, if_true]
  rw [if_pos ⟨h1, by simpa [TIME_TO_RESOLVE_HOURS] using h2⟩]
  rfl

/-- The base score of the end-to-end scenario trade: every one of the
five factors fires. -/
lemma calculate_score_scenario (now fts : ℤ) (endStr : String)
    (hparse : parseIso endStr = some ⟨now + 72000, true⟩)
    (hfts : fts = now - 172800) (hpos : 172800 < now) :
    (calculate_score (Trade.mk "YES" (1/20) 20000)
      (WalletData.mk (some fts) 2) (Market.mk (some endStr)) now).score
      = 110 := by
  have hd : calculate_wallet_age_days now (some fts) = 2 := by
    simp only [calculate_wallet_age_days]
    rw [if_neg (by omega)]
    omega
  have hage : calculate_wallet_age_score now (some fts) = 40 := by
    simp only [calculate_wallet_age_score, hd]
    rw [if_neg (by omega)]
    norm_num [NEW_WALLET_DAYS_HIGH, SCORES_wallet_age_high]
  have heff : get_effective_odds (1/20) "YES" = 1/20 := rfl
  have htrend : calculate_against_trend_score (1/20) "YES" = 25 := by
    simp only [calculate_against_trend_score, heff]
    norm_num [LOW_ODDS_THRESHOLD, SCORES_against_trend]
  have hbet : calculate_bet_size_score (1000 : ℚ) = 20 := by
    simp only [calculate_bet_size_score]
    norm_num [MIN_BET_SIZE, SCORES_large_bet]
  have hne : endStr ≠ "" := by
    intro h
    rw [h] at hparse
    simp [parseIso, replaceZ, parseIsoCore] at hparse
  have harith : now + 72000 - now = 72000 := by ring
  have htime : calculate_timing_score (some endStr) now = 15 := by
    refine calculate_timing_score_fires endStr now ⟨now + 72000, true⟩ hne
      hparse rfl ?_ ?_ <;>
      simp only [harith] <;> norm_num
  have hact : calculate_activity_score 2 = 10 := rfl
  show calculate_wallet_age_score now (some fts) +
      calculate_against_trend_score (1/20) "YES" +
      calculate_bet_size_score
        (if ("YES" ≠ "" && pyLower "YES" = "no") = true
         then 20000 * (1 - 1/20) else 20000 * (1/20)) +
      calculate_timing_score (some endStr) now +
      calculate_activity_score 2 = 110
  rw [hage, htrend, htime, hact,
    if_neg (show ¬(("YES" ≠ "" && pyLower "YES" = "no") = true) from by decide)]
  norm_num [hbet]

/-- C3 (amended): on the end-to-end scenario trade (size 20000, price
0.05, outcome YES, wallet age 2 days, 2 activities, endDate 20 hours
ahead, title "Will Candidate X win the primary") the base score is
exactly 110 = 40+25+20+15+10; but `should_skip_alert` does veto the
alert: an end date 20 hours ahead always falls on today's or tomorrow's
calendar date, so the SHORT_TERM_MARKET filter fires and skip is True,
not False as claimed. -/
theorem scenario_base_110_but_short_term_skip (now fts : ℤ) (endStr : String)
    (hparse : parseIso endStr = some ⟨now + 72000, true⟩)
    (hfts : fts = now - 172800) (hpos : 172800 < now) :
    (calculate_score (Trade.mk "YES" (1/20) 20000)
      (WalletData.mk (some fts) 2) (Market.mk (some endStr)) now).score
      = 110 ∧
    should_skip_alert "Will Candidate X win the primary" 2 (1/20) 2
        (some endStr) 1000 none "YES" now =
      (true, SkipReason.SHORT_TERM_MARKET) := by
  refine ⟨calculate_score_scenario now fts endStr hparse hfts hpos, ?_⟩
  refine should_skip_short_term "Will Candidate X win the primary" 2 2
    (1/20) 1000 "YES" now endStr ⟨now + 72000, true⟩ (by decide) rfl hparse
    (by decide) ?_
  simp only [epochDay]
  omega

theorem scenario_base_110_but_short_term_skip_witness :
    parseIso "2026-01-01T20:00:00Z" =
      some ⟨(1767225600 : ℤ) + 72000, true⟩ ∧
    (1767052800 : ℤ) = 1767225600 - 172800 ∧
    (172800 : ℤ) < 1767225600 ∧
    ((calculate_score (Trade.mk "YES" (1/20) 20000)
        (WalletData.mk (some 1767052800) 2)
        (Market.mk (some "2026-01-01T20:00:00Z")) 1767225600).score = 110 ∧
     should_skip_alert "Will Candidate X win the primary" 2 (1/20) 2
         (some "2026-01-01T20:00:00Z") 1000 none "YES" 1767225600 =
       (true, SkipReason.SHORT_TERM_MARKET)) :=
  ⟨rfl, by norm_num, by norm_num,
   scenario_base_110_but_short_term_skip 1767225600 1767052800
     "2026-01-01T20:00:00Z" rfl (by norm_num) (by norm_num)⟩

/-- C3 counterexample: at the concrete scenario input the filter
cascade returns skip = True (SHORT_TERM_MARKET), refuting the claimed
skip = False. -/
theorem scenario_skip_is_true_counterexample :
    should_skip_alert "Will Candidate X win the primary" 2 (1/20) 2
        (some "2026-01-01T20:00:00Z") 1000 none "YES" 1767225600 =
      (true, SkipReason.SHORT_TERM_MARKET) ∧
    (should_skip_alert "Will Candidate X win the primary" 2 (1/20) 2
        (some "2026-01-01T20:00:00Z") 1000 none "YES" 1767225600).1 ≠
      false := by
  have h : should_skip_alert "Will Candidate X win the primary" 2 (1/20) 2
      (some "2026-01-01T20:00:00Z") 1000 none "YES" 1767225600 =
      (true, SkipReason.SHORT_TERM_MARKET) := by
    refine should_skip_short_term "Will Candidate X win the primary" 2 2
      (1/20) 1000 "YES" 1767225600 "2026-01-01T20:00:00Z"
      ⟨1767297600, true⟩ (by decide) rfl rfl (by decide) ?_
    simp only [epochDay]
    norm_num
  exact ⟨h, by rw [h]; simp⟩
